import Mathlib

/-!
Verification of the HealthSync-Web backend metrics pipeline.

This file is a shallow embedding, in Lean 4, of the core of the
`Backend/app` Python package:

* the Withings normalizer `daily_metrics` / `fetch_for` and its intraday
  sample collector `_collect_metric_samples`
  (`app/withings/metrics.py`);
* the Fitbit intraday heart-rate parser `_parse` (`app/fitbit/metrics.py`);
* the metrics store upsert helpers (`app/db/crud/metrics.py`,
  `app/db/crud/heart_rate_intraday.py`);
* the threshold alert engine `check_heart_rate_thresholds` /
  `get_latest_heart_rate` (`app/core/tasks.py`).

Conventions used throughout the embedding:

* JSON-ish Python values are modelled by the inductive type `Val`;
  Python dicts are association lists in insertion order (keys unique).
* Python `float` and `int` payload numbers are both modelled by `ℚ`
  (`Val.num`); `isinstance(x, (int, float))` is the `Val.num` pattern.
  Python `bool` (a subclass of `int`) does not occur in provider payloads
  and is not modelled.
* `int(x)` on a number truncates toward zero: `pyInt`.
* `round(x, 2)` is modelled by `round2`, rounding half up; Python rounds
  floats to even at exact ties, a difference no claim below depends on.
* Timestamps and local dates are `Int` (epoch seconds, day numbers).
* Attribute errors raised by calling `.get` on a non-dict are modelled
  with `Except String`.
-/

namespace HealthSync

/-- A JSON-like Python value as produced by `requests.Response.json()`. -/
inductive Val : Type where
  | num (q : ℚ)
  | str (s : String)
  | list (xs : List Val)
  | dict (kvs : List (String × Val))
  | null
deriving Repr

/-- Python truthiness of a `Val` (`bool(v)`). -/
def Val.truthy : Val → Bool
  | .num q => q != 0
  | .str s => s != ""
  | .list xs => !xs.isEmpty
  | .dict kvs => !kvs.isEmpty
  | .null => false

/-- `d.get(k)` on a value already known to be a dict: the first binding of
`k`, or `None` when absent.  (Python dict keys are unique; association
lists model the insertion order.) -/
def dictGet (kvs : List (String × Val)) (k : String) : Val :=
  match kvs.find? (fun kv => kv.1 == k) with
  | some kv => kv.2
  | none => .null

/-- `v.get(k)` on an arbitrary value: raises `AttributeError` unless `v`
is a dict. -/
def pyGet (v : Val) (k : String) : Except String Val :=
  match v with
  | .dict kvs => .ok (dictGet kvs k)
  | _ => .error "AttributeError"

/-- Python `int(q)` for a numeric `q`: truncation toward zero. -/
def pyInt (q : ℚ) : Int :=
  Int.tdiv q.num q.den

/-- Floor of a rational (den is positive, so Euclidean division is
floor division). -/
def ratFloor (q : ℚ) : Int :=
  q.num / (q.den : Int)

/-- Python `round(x, 2)` (see the header note on half-way ties). -/
def round2 (q : ℚ) : ℚ :=
  ((ratFloor (q * 100 + 1 / 2) : Int) : ℚ) / 100

/-- Decimal digit value of a character. -/
def digitVal (c : Char) : Option Nat :=
  if c = '0' then some 0 else if c = '1' then some 1
  else if c = '2' then some 2 else if c = '3' then some 3
  else if c = '4' then some 4 else if c = '5' then some 5
  else if c = '6' then some 6 else if c = '7' then some 7
  else if c = '8' then some 8 else if c = '9' then some 9
  else none

/-- Accumulate decimal digits; `none` accumulator means no digit seen
yet; any non-digit character fails the parse. -/
def parseNatChars : List Char → Option Nat → Option Nat
  | [], acc => acc
  | c :: rest, acc =>
    match digitVal c, acc with
    | some d, some a => parseNatChars rest (some (a * 10 + d))
    | some d, none => parseNatChars rest (some d)
    | none, _ => none

/-- Python `int(s)` on a string: optional sign then decimal digits
(whitespace/underscore forms accepted by Python do not occur in provider
payloads and are not modelled). -/
def pyParseInt (s : String) : Option Int :=
  match s.data with
  | '-' :: rest => (parseNatChars rest none).map (fun n => -(n : Int))
  | l => (parseNatChars l none).map (fun n => (n : Int))

/-- Parse a decimal natural from a string. -/
def pyParseNat (s : String) : Option Nat :=
  parseNatChars s.data none

/-- One intraday sample as built by the normalizer: a Unix timestamp and
a numeric value (`{"t": ..., "v": ...}` in `_collect_metric_samples`,
`{"ts": ..., "bpm": ...}` in the Fitbit `_parse`). -/
structure Sample where
  t : Int
  v : ℚ
deriving DecidableEq, Repr

/-- The de-duplication loop shared by `_collect_metric_samples` and the
heart-rate parsers: keep the first sample for each timestamp already in
`seen`-order. -/
def dedupeSamples : List Sample → List Int → List Sample
  | [], _ => []
  | s :: rest, seen =>
    if s.t ∈ seen then dedupeSamples rest seen
    else s :: dedupeSamples rest (s.t :: seen)

/-- `list.sort(key=lambda x: x["t"])`: stable sort by timestamp. -/
def sortSamples (l : List Sample) : List Sample :=
  l.insertionSort (fun a b => a.t ≤ b.t)

/-- The sample-accumulation phase of `_collect_metric_samples` (before the
de-dupe/sort post-processing); see `_collect_metric_samples`. -/
def collectRawSamples (series_obj : Val) (key : String) :
    Except String (List Sample) :=
  match series_obj with
  | .list xs =>
    pure (xs.filterMap (fun it =>
      match it with
      | .dict kvs =>
        let v := dictGet kvs key
        let ts0 := dictGet kvs "timestamp"
        let ts := if ts0.truthy then ts0 else dictGet kvs "time"
        match v, ts with
        | .num vq, .num tq => some ⟨pyInt tq, vq⟩
        | _, _ => none
      | _ => none))
  | .dict kvs =>
    match dictGet kvs key with
    | .dict m =>
      pure (m.filterMap (fun e =>
        match pyParseInt e.1, e.2 with
        | some tsI, .num vq => some ⟨tsI, vq⟩
        | _, _ => none))
    | _ =>
      match dictGet kvs "data" with
      | .list pts => do
        let opts ← pts.mapM (fun pt => do
          let v ← pyGet pt key
          let ts0 ← pyGet pt "timestamp"
          let ts ← if ts0.truthy then pure ts0 else pyGet pt "time"
          match v, ts with
          | .num vq, .num tq => pure (some (Sample.mk (pyInt tq) vq))
          | _, _ => pure none)
        pure (opts.filterMap id)
      | _ => pure []
  | _ => pure []

/-- `_collect_metric_samples(series_obj, key)` from
`app/withings/metrics.py` (lines 309-343).  Shapes:
list of sample dicts; dict of metric-name maps (`{"steps": {ts: v}}`);
dict with a `"data"` list.  In the last shape Python calls `.get` on each
entry unguarded, so a non-dict entry raises (`Except.error`); everywhere
else unparseable samples are skipped.  The collected samples are
de-duplicated by timestamp (first wins) and then sorted. -/
def _collect_metric_samples (series_obj : Val) (key : String) :
    Except String (List Sample) :=
  (collectRawSamples series_obj key).map
    (fun samples => sortSamples (dedupeSamples samples []))

/-- `"HH:MM"` / `"HH:MM:SS"` to seconds-of-day, as accepted by
`datetime.fromisoformat` after the Fitbit parser pads a 5-character time
with `":00"`; anything unparsable yields `none` (the Python
`except: continue`). -/
def parseHHMMSS (t : String) : Option Int :=
  let t := if t.length == 5 then t ++ ":00" else t
  match t.splitOn ":" with
  | [h, m, s] =>
    match pyParseNat h, pyParseNat m, pyParseNat s with
    | some hh, some mm, some ss =>
      if h.length = 2 ∧ m.length = 2 ∧ s.length = 2 ∧
          hh < 24 ∧ mm < 60 ∧ ss < 60 then
        some ((hh : Int) * 3600 + mm * 60 + ss)
      else none
    | _, _, _ => none
  | _ => none

/-- `_parse(j, date_str)` from `app/fitbit/metrics.py` (lines 1222-1248):
flattens `activities-heart-intraday.dataset` rows; rows whose `time` is
not a string or `value` not numeric are skipped; a row that is not a dict
raises (`.get` on a non-dict).  Samples are sorted by timestamp and then
de-duplicated keeping the first.  `dayBase` is the Unix timestamp of local
midnight of `date_str` in the user timezone (the embedding assumes a fixed
UTC offset over the day; only the timestamp order matters below). -/
def fitbit_intraday_parse (j : List (String × Val)) (dayBase : Int) :
    Except String (List Sample) := do
  let ds ← pyGet (if (dictGet j "activities-heart-intraday").truthy
    then dictGet j "activities-heart-intraday" else .dict []) "dataset"
  match (if ds.truthy then ds else Val.list []) with
  | .list rows => do
    let opts ← rows.mapM (fun row => do
      let t ← pyGet row "time"
      let v ← pyGet row "value"
      match t, v with
      | .str ts, .num vq =>
        match parseHHMMSS ts with
        | some secs => pure (some (Sample.mk (dayBase + secs) vq))
        | none => pure none
      | _, _ => pure none)
    pure (dedupeSamples (sortSamples (opts.filterMap id)) [])
  | _ => pure []

/-! ### The Withings daily normalizer (`fetch_for` in `daily_metrics`)

`fetch_for` in `app/withings/metrics.py` (lines 178-390) fetches three
provider responses for one local day.  The embedding takes the responses
as inputs (`FetchInputs`); the `Option` on each response is `none` when
the HTTP call did not return 200 with `status == 0` (in which case the
Python code leaves the corresponding fields untouched).  `is_today`
abstracts `day_dt == datetime.now(tz).date()` — whether the requested day
is the provider-timezone current day. -/

/-- The provider responses consumed by one `fetch_for` call. -/
structure FetchInputs where
  /-- `getactivity` `body.activities` rows (each row a dict). -/
  activities : Option (List (List (String × Val)))
  /-- `getintradayactivity` `body.series` (any shape), when the call
  succeeded; note `fetch_for` only issues this call under
  `fetch_intraday_cond` below. -/
  series : Option Val
  /-- sleep `getsummary` `body.series` rows. -/
  sleep : Option (List (List (String × Val)))
  /-- whether the requested day is "today" in the resolved timezone. -/
  is_today : Bool

/-- Roll-up steps: `total_steps += int(s)` over activity rows with numeric
`steps`. -/
def rollup_steps (acts : List (List (String × Val))) : Int :=
  acts.foldl (fun tot a =>
    match dictGet a "steps" with
    | .num q => tot + pyInt q
    | _ => tot) 0

/-- Roll-up distance in meters: `total_dist_m += float(d_m)` over rows
with numeric `distance`. -/
def rollup_dist_m (acts : List (List (String × Val))) : ℚ :=
  acts.foldl (fun tot a =>
    match dictGet a "distance" with
    | .num q => tot + q
    | _ => tot) 0

/-- First numeric `calories` over the activity rows
(`if calories is None and isinstance(c, (int, float))`). -/
def rollup_calories (acts : List (List (String × Val))) : Option ℚ :=
  acts.foldl (fun c a =>
    match c, dictGet a "calories" with
    | none, .num q => some q
    | _, _ => c) none

/-- `add_pair(v)` inside the intraday sum (lines 248-257): accumulate
`(intr_steps, intr_dist_m)` from a series entry; `it or {}` followed by
the `isinstance(v, dict)` guard means any non-dict entry contributes
nothing. -/
def add_pair (acc : Int × ℚ) (v : Val) : Int × ℚ :=
  match v with
  | .dict kvs =>
    let acc1 := match dictGet kvs "steps" with
      | .num q => (acc.1 + pyInt q, acc.2)
      | _ => acc
    match dictGet kvs "distance" with
    | .num q => (acc1.1, acc1.2 + q)
    | _ => acc1
  | _ => acc

/-- `looks_like_metrics` (lines 264-268): every top-level value is a dict
all of whose values are numeric. -/
def looks_like_metrics (kvs : List (String × Val)) : Bool :=
  kvs.all (fun kv =>
    match kv.2 with
    | .dict m => m.all (fun e => match e.2 with | .num _ => true | _ => false)
    | _ => false)

/-- `for v in (series.get("steps") or {}).values(): intr_steps += int(v)`
(lines 270-272). -/
def sum_metric_steps (kvs : List (String × Val)) : Int :=
  match dictGet kvs "steps" with
  | .dict m =>
    m.foldl (fun tot e =>
      match e.2 with
      | .num q => tot + pyInt q
      | _ => tot) 0
  | _ => 0

/-- `for v in (series.get("distance") or {}).values():
intr_dist_m += float(v)` (lines 273-275). -/
def sum_metric_dist (kvs : List (String × Val)) : ℚ :=
  match dictGet kvs "distance" with
  | .dict m =>
    m.foldl (fun tot e =>
      match e.2 with
      | .num q => tot + q
      | _ => tot) 0
  | _ => 0

/-- The intraday sums `(intr_steps, intr_dist_m)` computed from
`body.series` (lines 244-278), over all three accepted shapes. -/
def intraday_sums (series : Val) : Int × ℚ :=
  match series with
  | .list xs => xs.foldl add_pair (0, 0)
  | .dict kvs =>
    if looks_like_metrics kvs then
      (sum_metric_steps kvs, sum_metric_dist kvs)
    else
      kvs.foldl (fun acc kv => add_pair acc kv.2) (0, 0)
  | _ => (0, 0)

/-- Roll-up steps as `fetch_for` keeps them: `None` unless the total is
positive (`if total_steps > 0: steps = total_steps`), and `None` when the
roll-up call failed. -/
def rollup_steps_field (inp : FetchInputs) : Option Int :=
  match inp.activities with
  | none => none
  | some acts =>
    let t := rollup_steps acts
    if t > 0 then some t else none

/-- Roll-up distance in km as `fetch_for` keeps it
(`round(total_dist_m / 1000.0, 2)` when positive). -/
def rollup_dist_field (inp : FetchInputs) : Option ℚ :=
  match inp.activities with
  | none => none
  | some acts =>
    let d := rollup_dist_m acts
    if d > 0 then some (round2 (d / 1000)) else none

/-- Line 233: `if is_today or (steps is None or steps == 0) or
(distance_km is None)` — the guard under which the intraday request is
issued at all. -/
def fetch_intraday_cond (inp : FetchInputs) : Bool :=
  inp.is_today || (rollup_steps_field inp).isNone
    || (rollup_steps_field inp == some 0)
    || (rollup_dist_field inp).isNone

/-- Canonical steps value produced by `fetch_for` (lines 199-282):
roll-up, then `steps = max(int(steps or 0), intr_steps)` when the intraday
series was fetched and its sum is positive. -/
def fetch_for_steps (inp : FetchInputs) : Option Int :=
  let steps0 := rollup_steps_field inp
  match fetch_intraday_cond inp, inp.series with
  | true, some sv =>
    let intr := (intraday_sums sv).1
    if intr > 0 then some (max (steps0.getD 0) intr) else steps0
  | _, _ => steps0

/-- Canonical distance (km) produced by `fetch_for`:
`distance_km = max(float(distance_km or 0.0),
round(intr_dist_m / 1000.0, 2))` when the intraday sum is positive. -/
def fetch_for_distance (inp : FetchInputs) : Option ℚ :=
  let dist0 := rollup_dist_field inp
  match fetch_intraday_cond inp, inp.series with
  | true, some sv =>
    let intr := (intraday_sums sv).2
    if intr > 0 then some (max (dist0.getD 0) (round2 (intr / 1000)))
    else dist0
  | _, _ => dist0

/-- Sleep hours (lines 286-306): sum `totalsleepduration` (else
`asleepduration`) over the sleep summary rows; `None` when the total is
zero (`if total_sec else None`).  A truthy non-dict `data` field would
raise in Python; such shapes do not occur and are not modelled. -/
def fetch_for_sleep (inp : FetchInputs) : Option ℚ :=
  match inp.sleep with
  | none => none
  | some rows =>
    let total : Int := rows.foldl (fun tot row =>
      match dictGet row "data" with
      | .dict m =>
        match dictGet m "totalsleepduration" with
        | .num q => tot + pyInt q
        | _ =>
          match dictGet m "asleepduration" with
          | .num q => tot + pyInt q
          | _ => tot
      | _ => tot) 0
    if total ≠ 0 then some (round2 ((total : ℚ) / 3600)) else none

/-- The response record built by `fetch_for` (lines 380-390), with the
requested day index in place of the `"date"` string, plus the
`"fallbackFrom"` marker added by `daily_metrics` on the fallback path.
Raw debug payloads (`debug=1`) are not modelled. -/
structure DayResult where
  date : Int
  steps : Option Int
  calories : Option ℚ
  sleepHours : Option ℚ
  distanceKm : Option ℚ
  fallbackFrom : Option Int
deriving DecidableEq, Repr

/-- `fetch_for(dstr)`: the value part of a one-day sync.  (The intraday
persistence side effects of the same call are modelled separately by
`fetch_for_persist`; they can raise, in which case the endpoint produces
no response at all — see `_collect_metric_samples`.) -/
def fetch_for (inp : FetchInputs) (d : Int) : DayResult :=
  { date := d
    steps := fetch_for_steps inp
    calories := rollup_calories (inp.activities.getD [])
    sleepHours := fetch_for_sleep inp
    distanceKm := fetch_for_distance inp
    fallbackFrom := none }

/-- `_has_any(r)` (lines 392-393): any of `steps`, `distanceKm`
non-null. -/
def _has_any (r : DayResult) : Bool :=
  r.steps.isSome || r.distanceKm.isSome

/-- The fallback loop of `daily_metrics` (lines 399-412): try
`date - i` for `i = 1..fallback_days`; on the first day with data return
it tagged `fallbackFrom = date`; `none` when the lookback is exhausted.
`prov i` holds the provider responses for day `i`. -/
def fallback_loop (prov : Int → FetchInputs) (date : Int) :
    Nat → Nat → Option DayResult
  | _, 0 => none
  | i, n + 1 =>
    let cand := date - (i : Int)
    let r2 := fetch_for (prov cand) cand
    if _has_any r2 then some { r2 with fallbackFrom := some date }
    else fallback_loop prov date (i + 1) n

/-- The value returned by the `daily_metrics` endpoint (lines 158-423)
for a requested day `date` with lookback `fallback_days`: the requested
day if it has data (or fallback is disabled), else the first non-empty
day among `date-1 .. date-fallback_days`, else the (empty) requested-day
record itself. -/
def daily_metrics (prov : Int → FetchInputs) (date : Int)
    (fallback_days : Nat) : DayResult :=
  let result := fetch_for (prov date) date
  if !_has_any result ∧ fallback_days > 0 then
    match fallback_loop prov date 1 fallback_days with
    | some r2 => r2
    | none => result
  else result

/-! ### The idempotent metrics store (`app/db/crud/metrics.py`,
`app/db/crud/heart_rate_intraday.py`)

Tables are modelled as maps from their natural composite key to at most
one row — the `UniqueConstraint` on each table guarantees exactly this
shape, and `ON CONFLICT DO UPDATE` can never create a second row for a
key.  Every row carries the `updated_at` audit column (`Timed.updatedAt`),
set to the wall clock on every write; `Timed.data` holds the metric
columns.  `samples_json` columns are modelled by the sample list itself
(`json.dumps` is deterministic, so equal lists and equal stored strings
coincide). -/

/-- A stored row: metric data plus the `updated_at` audit column. -/
structure Timed (α : Type) where
  data : α
  updatedAt : Int
deriving DecidableEq, Repr

/-- A table keyed by `κ`. -/
def Table (κ : Type) (α : Type) : Type := κ → Option (Timed α)

/-- Point update of a table. -/
def Table.set {κ α : Type} [DecidableEq κ] (m : Table κ α) (k : κ)
    (row : Timed α) : Table κ α :=
  fun q => if q = k then some row else m q

/-- Key of the daily tables: `(user_id, provider, date_local)`. -/
structure DailyKey where
  user_id : String
  provider : String
  date_local : Int
deriving DecidableEq, Repr

/-- Key of the intraday tables:
`(user_id, provider, date_local, resolution)`. -/
structure IntradayKey where
  user_id : String
  provider : String
  date_local : Int
  resolution : String
deriving DecidableEq, Repr

/-- Metric columns of `steps_daily` (`app/db/models/steps.py`). -/
structure StepsDailyData where
  steps : Option Int
  active_min : Option Int
  calories : Option ℚ
deriving DecidableEq, Repr

/-- Metric columns of `distance_daily` (`app/db/models/distance.py`). -/
structure DistanceDailyData where
  distance_km : Option ℚ
deriving DecidableEq, Repr

/-- Metric columns of `steps_intraday` / `distance_intraday` /
`heart_rate_intraday`. -/
structure IntradayData where
  start_at_utc : Int
  end_at_utc : Int
  samples : List Sample
deriving DecidableEq, Repr

/-- Columns of `daily_snapshot` (`app/db/models/daily_snapshot.py`)
touched by the sync path, plus the heart-rate columns — which
`_upsert_daily_snapshot` must preserve on conflict — and `created_at`
(set on insert only).  The remaining metric columns (weight, SpO2,
temperature, ECG) behave exactly like the `avg_hr` group with respect to
this upsert and are omitted. -/
structure SnapshotData where
  steps : Option Int
  distance_km : Option ℚ
  calories : Option ℚ
  sleep_total_min : Option Int
  avg_hr : Option ℚ
  hr_min : Option ℚ
  hr_max : Option ℚ
  tz : Option String
  source_updated_at : Option Int
  created_at : Int
deriving DecidableEq, Repr

/-- `_bulk_upsert_steps_intraday` / `_bulk_upsert_distance_intraday`
(`app/db/crud/metrics.py`, lines 20-53): `ON CONFLICT
(user_id, provider, date_local, resolution) DO UPDATE` replacing
`start_at_utc`, `end_at_utc`, `samples_json` and `updated_at` wholesale;
`if not rows: return`. -/
def _bulk_upsert_intraday (m : Table IntradayKey IntradayData)
    (rows : List (IntradayKey × IntradayData)) (now : Int) :
    Table IntradayKey IntradayData :=
  rows.foldl (fun m kv => m.set kv.1 ⟨kv.2, now⟩) m

/-- `update_or_create_heart_rate_intraday`
(`app/db/crud/heart_rate_intraday.py`, lines 54-94): look up the row for
the key; update `start_at_utc`, `end_at_utc`, `samples_json` when
present, else create.  (`updated_at` behaves as in the models'
`onupdate=datetime.utcnow`.) -/
def update_or_create_heart_rate_intraday
    (m : Table IntradayKey IntradayData) (k : IntradayKey)
    (start_at_utc end_at_utc : Int) (samples : List Sample) (now : Int) :
    Table IntradayKey IntradayData :=
  match m k with
  | some _ => m.set k ⟨⟨start_at_utc, end_at_utc, samples⟩, now⟩
  | none => m.set k ⟨⟨start_at_utc, end_at_utc, samples⟩, now⟩

/-- `_upsert_steps_daily` (lines 57-82): insert
`(steps, calories)` (with `active_min` NULL), or on conflict update
`steps`, `calories`, `updated_at` only. -/
def _upsert_steps_daily (m : Table DailyKey StepsDailyData)
    (k : DailyKey) (steps : Option Int) (calories : Option ℚ)
    (now : Int) : Table DailyKey StepsDailyData :=
  match m k with
  | some old => m.set k ⟨{ old.data with steps := steps, calories := calories }, now⟩
  | none => m.set k ⟨⟨steps, none, calories⟩, now⟩

/-- `_upsert_distance_daily` (lines 85-107). -/
def _upsert_distance_daily (m : Table DailyKey DistanceDailyData)
    (k : DailyKey) (distance_km : Option ℚ) (now : Int) :
    Table DailyKey DistanceDailyData :=
  match m k with
  | some old => m.set k ⟨{ old.data with distance_km := distance_km }, now⟩
  | none => m.set k ⟨⟨distance_km⟩, now⟩

/-- `_upsert_daily_snapshot` (lines 110-145): on conflict update only
`steps`, `distance_km`, `calories`, `sleep_total_min`, `tz`,
`updated_at`; on insert also set `source_updated_at = None`,
`created_at = now`, and leave the other metric columns NULL. -/
def _upsert_daily_snapshot (m : Table DailyKey SnapshotData)
    (k : DailyKey) (steps : Option Int) (distance_km : Option ℚ)
    (calories : Option ℚ) (sleep_total_min : Option Int)
    (tz : Option String) (now : Int) : Table DailyKey SnapshotData :=
  match m k with
  | some old =>
    m.set k ⟨{ old.data with
      steps := steps, distance_km := distance_km, calories := calories,
      sleep_total_min := sleep_total_min, tz := tz }, now⟩
  | none =>
    m.set k ⟨⟨steps, distance_km, calories, sleep_total_min,
      none, none, none, tz, none, now⟩, now⟩

/-- The mutable state the daily sync path touches. -/
structure StoreState where
  steps_daily : Table DailyKey StepsDailyData
  distance_daily : Table DailyKey DistanceDailyData
  daily_snapshot : Table DailyKey SnapshotData
  steps_intraday : Table IntradayKey IntradayData
  distance_intraday : Table IntradayKey IntradayData

/-- `_persist_daily_snapshot(db, access_token, payload)`
(`app/withings/metrics.py`, lines 101-155): resolve the user (on failure
return with no writes — `resolveOk`), then upsert `steps_daily`
(always), `distance_daily` (only for a numeric distance) and
`daily_snapshot`, and commit. -/
def _persist_daily_snapshot (uid : String) (tz : Option String)
    (resolveOk : Bool) (r : DayResult) (now : Int) (s : StoreState) :
    StoreState :=
  if resolveOk then
    let k : DailyKey := ⟨uid, "withings", r.date⟩
    let s1 := { s with steps_daily :=
      _upsert_steps_daily s.steps_daily k r.steps r.calories now }
    let s2 := if r.distanceKm.isSome then
        { s1 with distance_daily :=
          _upsert_distance_daily s1.distance_daily k r.distanceKm now }
      else s1
    let snap := _upsert_daily_snapshot s2.daily_snapshot k r.steps
      r.distanceKm r.calories (r.sleepHours.map (fun h => pyInt (h * 60)))
      tz now
    { s2 with daily_snapshot := snap }
  else s

/-- The intraday persistence block of `fetch_for` (lines 308-378): when
the day is today and the intraday response was obtained, collect steps
and distance samples (either collection can raise, losing the whole
request), resolve the user (failure is swallowed) and bulk-upsert the
non-empty sample lists under resolution `"var"`.  `startEpoch`/`endEpoch`
are the UTC bounds of the queried window. -/
def fetch_for_persist (inp : FetchInputs) (d : Int) (uid : String)
    (resolveOk : Bool) (startEpoch endEpoch : Int) (now : Int)
    (s : StoreState) : Except String StoreState :=
  match inp.is_today, inp.series with
  | true, some sv => do
    let steps_samples ← _collect_metric_samples sv "steps"
    let dist_samples ← _collect_metric_samples sv "distance"
    if resolveOk then
      let k : IntradayKey := ⟨uid, "withings", d, "var"⟩
      let stepsTab := _bulk_upsert_intraday s.steps_intraday
        [(k, ⟨startEpoch, endEpoch, steps_samples⟩)] now
      let s1 := if !steps_samples.isEmpty then
          { s with steps_intraday := stepsTab }
        else s
      let distTab := _bulk_upsert_intraday s1.distance_intraday
        [(k, ⟨startEpoch, endEpoch, dist_samples⟩)] now
      pure (if !dist_samples.isEmpty then
          { s1 with distance_intraday := distTab }
        else s1)
    else pure s
  | _, _ => pure s

/-- Day-window bounds for persisting, abstracted: the code derives them
from the resolved timezone and clamps the end to now for today.  They are
a function of the day only (identical across re-runs at the same
inputs). -/
structure SyncCfg where
  prov : Int → FetchInputs
  date : Int
  fallback_days : Nat
  uid : String
  tz : Option String
  resolveOk : Bool
  window : Int → Int × Int

/-- The fallback loop of `daily_metrics` with its persistence effects:
each candidate day runs `fetch_for` (whose intraday block writes), and
the first non-empty day is returned. -/
def fallback_loop_run (cfg : SyncCfg) (now : Int) :
    Nat → Nat → StoreState → Except String (Option DayResult × StoreState)
  | _, 0, s => pure (none, s)
  | i, n + 1, s => do
    let cand := cfg.date - (i : Int)
    let inp := cfg.prov cand
    let r2 := fetch_for inp cand
    let s2 ← fetch_for_persist inp cand cfg.uid cfg.resolveOk
      (cfg.window cand).1 (cfg.window cand).2 now s
    if _has_any r2 then
      pure (some { r2 with fallbackFrom := some cfg.date }, s2)
    else fallback_loop_run cfg now (i + 1) n s2

/-- One full `daily_metrics` request (lines 158-423) with its
persistence: fetch-and-persist the requested day; if empty and fallback
is enabled, walk back persisting each tried day, and finally persist the
returned payload via `_persist_daily_snapshot`. -/
def daily_metrics_run (cfg : SyncCfg) (now : Int) (s : StoreState) :
    Except String (DayResult × StoreState) := do
  let inp0 := cfg.prov cfg.date
  let r0 := fetch_for inp0 cfg.date
  let s1 ← fetch_for_persist inp0 cfg.date cfg.uid cfg.resolveOk
    (cfg.window cfg.date).1 (cfg.window cfg.date).2 now s
  if !_has_any r0 ∧ cfg.fallback_days > 0 then do
    match ← fallback_loop_run cfg now 1 cfg.fallback_days s1 with
    | (some r2, s2) =>
      pure (r2, _persist_daily_snapshot cfg.uid cfg.tz cfg.resolveOk r2 now s2)
    | (none, s2) =>
      pure (r0, _persist_daily_snapshot cfg.uid cfg.tz cfg.resolveOk r0 now s2)
  else
    pure (r0, _persist_daily_snapshot cfg.uid cfg.tz cfg.resolveOk r0 now s1)

/-! ### The threshold alert engine (`app/core/tasks.py`)

`check_heart_rate_thresholds` iterates over users; the embedding models
the body of the loop for one user (`check_user_thresholds`).  Wall-clock
reads (`datetime.now()` at lines 113, 144, 178) within one iteration are
modelled by a single instant `now`; thresholds and readings are `ℚ`
(notification values are `Float` columns).  Dispatch through
`send_hr_threshold_alert_task.delay` either succeeds (the alert is
queued) or raises; the two outcomes are the booleans
`dispatch_high_ok` / `dispatch_low_ok`.  A raise is caught and
`db.rollback()` restores the last committed `HeartRateNotification`
row. -/

/-- The daily heart-rate roll-up row
(`avg_bpm` / `min_bpm` / `max_bpm` columns of `heart_rate_daily`). -/
structure HRDailyRow where
  hr_average : Option ℚ
  hr_min : Option ℚ
  hr_max : Option ℚ
deriving DecidableEq, Repr

/-- Modelled from the spec: `get_heart_rate_daily` is imported by
`app/core/tasks.py` from `app.db.crud.metrics` but is defined nowhere in
the repository.  Per §3/§6 of the spec it reads the stored daily
heart-rate record for a `(user, provider, local date)` key; the embedding
looks the row up in a per-user daily store. -/
def get_heart_rate_daily (store : String → Int → Option HRDailyRow)
    (provider : String) (d : Int) : Option HRDailyRow :=
  store provider d

/-- The dict built by `get_latest_heart_rate` (lines 208-214). -/
structure LatestHR where
  value : Option ℚ
  min : Option ℚ
  max : Option ℚ
  date : Int
deriving DecidableEq, Repr

/-- Python truthiness of an optional number (`None` and `0` falsy). -/
def truthyQ : Option ℚ → Bool
  | none => false
  | some q => q != 0

/-- The `for days_ago in range(8)` loop of `get_latest_heart_rate`:
`days_ago` counts up, `fuel` is the remaining iterations. -/
def latest_hr_loop (store : String → Int → Option HRDailyRow)
    (today : Int) : Nat → Nat → Option LatestHR
  | _, 0 => none
  | days_ago, fuel + 1 =>
    let d := today - (days_ago : Int)
    match get_heart_rate_daily store "withings" d with
    | some hr =>
      if truthyQ hr.hr_max ∧ truthyQ hr.hr_min then
        some ⟨hr.hr_average, hr.hr_min, hr.hr_max, d⟩
      else latest_hr_loop store today (days_ago + 1) fuel
    | none => latest_hr_loop store today (days_ago + 1) fuel

/-- `get_latest_heart_rate(db, user_id)` (`app/core/tasks.py`, lines
193-217): scan today and the 7 previous days of the *withings* daily
store, returning the first day whose row has truthy `hr_max` and
`hr_min`; `None` when all 8 days fail the test. -/
def get_latest_heart_rate (store : String → Int → Option HRDailyRow)
    (today : Int) : Option LatestHR :=
  latest_hr_loop store today 0 8

/-- The candidate selection as claim C8 states it, following the spec's
words (§4.4 / §4.2 step 5): prefer a live/real-time provider reading when
present and recent, else the most recent daily-aggregate reading from
*any* provider, scanning backward day by day.  Defined only to be
compared against `get_latest_heart_rate`. -/
def claimed_candidate (live : Option LatestHR) (live_recent : Bool)
    (providers : List String)
    (store : String → Int → Option HRDailyRow) (today : Int) :
    Option LatestHR :=
  match live, live_recent with
  | some l, true => some l
  | _, _ =>
    (List.range 8).findSome? (fun days_ago =>
      let d := today - (days_ago : Int)
      providers.findSome? (fun p =>
        match store p d with
        | some hr =>
          if truthyQ hr.hr_max ∧ truthyQ hr.hr_min then
            some (LatestHR.mk hr.hr_average hr.hr_min hr.hr_max d)
          else none
        | none => none))

/-- The per-user `HeartRateNotification` row
(`app/db/models/hr_notification.py`). -/
structure NotifState where
  last_max_notified : Option ℚ
  last_min_notified : Option ℚ
  last_notification_time : Option Int
deriving DecidableEq, Repr

/-- The `users` columns the engine reads. -/
structure UserRow where
  email : Option String
  hr_threshold_high : Option ℚ
  hr_threshold_low : Option ℚ
deriving DecidableEq, Repr

/-- Python truthiness of an optional string. -/
def truthyStr : Option String → Bool
  | none => false
  | some s => s != ""

/-- A queued `send_hr_threshold_alert` payload (recipient and name
omitted). -/
structure Alert where
  threshold_type : String
  heart_rate : ℚ
  threshold_value : ℚ
  date : Int
deriving DecidableEq, Repr

/-- Result of one user's threshold evaluation. -/
structure CheckOutcome where
  notif : Option NotifState
  alerts : List Alert
  fired_high : Bool
  fired_low : Bool
deriving DecidableEq, Repr

/-- The body of the per-user loop of `check_heart_rate_thresholds`
(`app/core/tasks.py`, lines 79-185) for one user:

* skip users without an email;
* skip users without a candidate reading (before any state is created);
* lazily create the `HeartRateNotification` row with
  `last_notification_time = now`;
* `should_check`: no `last_notification_time`, or strictly more than one
  hour elapsed (line 113, `>` on a `timedelta(hours=1)`); computed once,
  before both branches;
* high side (lines 117-151): guarded by *truthiness* of
  `user.hr_threshold_high` and `latest_hr["max"]`; fires when the value
  exceeds the threshold and (`last_max_notified is None`, or
  `abs(diff) >= 5`, or `should_check`); on a dispatch exception the
  update is rolled back;
* low side (lines 154-185): symmetric with `<`, reusing the same
  `should_check`. -/
def check_user_thresholds (user : UserRow) (latest : Option LatestHR)
    (notif0 : Option NotifState) (now : Int)
    (dispatch_high_ok dispatch_low_ok : Bool) : CheckOutcome :=
  if !truthyStr user.email then ⟨notif0, [], false, false⟩ else
  match latest with
  | none => ⟨notif0, [], false, false⟩
  | some l =>
    let n0 : NotifState := match notif0 with
      | some n => n
      | none => ⟨none, none, some now⟩
    let should_check : Bool :=
      n0.last_notification_time.isNone
        || decide (now - n0.last_notification_time.getD 0 > 3600)
    let high_fires : Bool :=
      truthyQ user.hr_threshold_high && truthyQ l.max
        && decide (l.max.getD 0 > user.hr_threshold_high.getD 0)
        && (n0.last_max_notified.isNone
          || decide (|l.max.getD 0 - n0.last_max_notified.getD 0| ≥ 5)
          || should_check)
    let n1 := if high_fires && dispatch_high_ok then
        { n0 with
            last_max_notified := l.max
            last_notification_time := some now }
      else n0
    let alerts1 : List Alert := if high_fires && dispatch_high_ok then
        [⟨"high", l.max.getD 0, user.hr_threshold_high.getD 0, l.date⟩]
      else []
    let low_fires : Bool :=
      truthyQ user.hr_threshold_low && truthyQ l.min
        && decide (l.min.getD 0 < user.hr_threshold_low.getD 0)
        && (n1.last_min_notified.isNone
          || decide (|l.min.getD 0 - n1.last_min_notified.getD 0| ≥ 5)
          || should_check)
    let n2 := if low_fires && dispatch_low_ok then
        { n1 with
            last_min_notified := l.min
            last_notification_time := some now }
      else n1
    let alerts2 : List Alert := if low_fires && dispatch_low_ok then
        alerts1 ++ [⟨"low", l.min.getD 0, user.hr_threshold_low.getD 0, l.date⟩]
      else alerts1
    ⟨some n2, alerts2, high_fires && dispatch_high_ok,
      low_fires && dispatch_low_ok⟩

/-! ### Auxiliary definitions used by the proofs -/

deriving instance DecidableEq for Except

instance : IsTotal Sample (fun a b => a.t ≤ b.t) :=
  ⟨fun a b => le_total a.t b.t⟩

instance : IsTrans Sample (fun a b => a.t ≤ b.t) :=
  ⟨fun _ _ _ hab hbc => le_trans hab hbc⟩

/-- The last write for key `q` in a write list (later entries win). -/
def lastW (rows : List (IntradayKey × IntradayData)) (q : IntradayKey) :
    Option IntradayData :=
  rows.foldl (fun acc kv => if kv.1 = q then some kv.2 else acc) none

/-- A table row without its `updated_at` audit column. -/
def stripRow {α : Type} (o : Option (Timed α)) : Option α :=
  o.map Timed.data

/-- A `StoreState` with the `updated_at` audit columns removed: the
persisted metric data. -/
structure StrippedStore where
  steps_daily : DailyKey → Option StepsDailyData
  distance_daily : DailyKey → Option DistanceDailyData
  daily_snapshot : DailyKey → Option SnapshotData
  steps_intraday : IntradayKey → Option IntradayData
  distance_intraday : IntradayKey → Option IntradayData

/-- Strip the audit columns from every table. -/
def StoreState.strip (s : StoreState) : StrippedStore :=
  ⟨fun k => stripRow (s.steps_daily k), fun k => stripRow (s.distance_daily k),
    fun k => stripRow (s.daily_snapshot k),
    fun k => stripRow (s.steps_intraday k),
    fun k => stripRow (s.distance_intraday k)⟩

/-- The intraday writes issued by one `daily_metrics` request: a write
log, recorded so that re-running the request can be compared with the
first run.  The log is a function of the provider responses only. -/
structure RunLog where
  steps_w : List (IntradayKey × IntradayData)
  dist_w : List (IntradayKey × IntradayData)

/-- Concatenate two write logs. -/
def RunLog.append (a b : RunLog) : RunLog :=
  ⟨a.steps_w ++ b.steps_w, a.dist_w ++ b.dist_w⟩

/-- The intraday writes of a single `fetch_for` call (mirrors
`fetch_for_persist` without the state). -/
def day_log (inp : FetchInputs) (d : Int) (uid : String)
    (resolveOk : Bool) (startEpoch endEpoch : Int) :
    Except String RunLog :=
  match inp.is_today, inp.series with
  | true, some sv => do
    let steps_samples ← _collect_metric_samples sv "steps"
    let dist_samples ← _collect_metric_samples sv "distance"
    if resolveOk then
      let k : IntradayKey := ⟨uid, "withings", d, "var"⟩
      pure ⟨if !steps_samples.isEmpty then
          [(k, ⟨startEpoch, endEpoch, steps_samples⟩)] else [],
        if !dist_samples.isEmpty then
          [(k, ⟨startEpoch, endEpoch, dist_samples⟩)] else []⟩
    else pure ⟨[], []⟩
  | _, _ => pure ⟨[], []⟩

/-- The write log and result of the fallback loop (mirrors
`fallback_loop_run` without the state). -/
def loop_log (cfg : SyncCfg) : Nat → Nat →
    Except String (Option DayResult × RunLog)
  | _, 0 => pure (none, ⟨[], []⟩)
  | i, n + 1 => do
    let cand := cfg.date - (i : Int)
    let inp := cfg.prov cand
    let r2 := fetch_for inp cand
    let L ← day_log inp cand cfg.uid cfg.resolveOk
      (cfg.window cand).1 (cfg.window cand).2
    if _has_any r2 then
      pure (some { r2 with fallbackFrom := some cfg.date }, L)
    else do
      let x ← loop_log cfg (i + 1) n
      pure (x.1, L.append x.2)

/-- The result and full intraday write log of one `daily_metrics`
request (mirrors `daily_metrics_run` without the state). -/
def run_log (cfg : SyncCfg) : Except String (DayResult × RunLog) := do
  let inp0 := cfg.prov cfg.date
  let r0 := fetch_for inp0 cfg.date
  let L0 ← day_log inp0 cfg.date cfg.uid cfg.resolveOk
    (cfg.window cfg.date).1 (cfg.window cfg.date).2
  if !_has_any r0 ∧ cfg.fallback_days > 0 then do
    match ← loop_log cfg 1 cfg.fallback_days with
    | (some r2, L) => pure (r2, L0.append L)
    | (none, L) => pure (r0, L0.append L)
  else pure (r0, L0)

/-- Apply a run's writes (intraday log plus the final
`_persist_daily_snapshot` of payload `r`) to a state. -/
def apply_run (cfg : SyncCfg) (L : RunLog) (r : DayResult) (now : Int)
    (s : StoreState) : StoreState :=
  _persist_daily_snapshot cfg.uid cfg.tz cfg.resolveOk r now
    { s with
        steps_intraday := _bulk_upsert_intraday s.steps_intraday L.steps_w now
        distance_intraday := _bulk_upsert_intraday s.distance_intraday L.dist_w now }

/-! #### Concrete inputs used by witnesses and counterexamples -/

/-- A store with no rows. -/
def emptyStore : StoreState :=
  ⟨fun _ => none, fun _ => none, fun _ => none, fun _ => none, fun _ => none⟩

/-- Intraday series summing to 500 steps (metric-map shape). -/
def c1_series : Val := .dict [("steps", .dict [("1", .num 500)])]

/-- A past day whose roll-up already has steps and distance: the intraday
series (which sums to 500 steps) is not consulted at all. -/
def c1_inputs : FetchInputs :=
  { activities := some [[("steps", .num 100), ("distance", .num 1000)]]
    series := some c1_series
    sleep := none
    is_today := false }

/-- Intraday list summing to 30 steps and 2500 m. -/
def c1w_series : Val :=
  .list [.dict [("steps", .num 30), ("distance", .num 2500)]]

/-- A "today" sync with roll-up steps 100 and an intraday list summing to
30 steps and 2500 m. -/
def c1w_inputs : FetchInputs :=
  { activities := some [[("steps", .num 100)]]
    series := some c1w_series
    sleep := none
    is_today := true }

/-- A day with no data at all. -/
def c4_empty_inputs : FetchInputs :=
  { activities := some [], series := none, sleep := none, is_today := false }

/-- A day whose roll-up has 50 steps. -/
def c4_data_inputs : FetchInputs :=
  { activities := some [[("steps", .num 50)]], series := none, sleep := none,
    is_today := false }

/-- Provider history: data only on day 8. -/
def c4_prov : Int → FetchInputs :=
  fun d => if d = 8 then c4_data_inputs else c4_empty_inputs

/-- Provider history with no data anywhere. -/
def c4_prov_empty : Int → FetchInputs :=
  fun _ => c4_empty_inputs

/-- A day whose sync yields only sleep hours (8 h of
`totalsleepduration`); steps and distance are null. -/
def c4_sleep_inputs : FetchInputs :=
  { activities := some []
    series := none
    sleep := some [[("data", .dict [("totalsleepduration", .num 28800)])]]
    is_today := false }

/-- Provider history: sleep-only data on day 9, steps on day 8. -/
def c4b_prov : Int → FetchInputs :=
  fun d =>
    if d = 8 then c4_data_inputs
    else if d = 9 then c4_sleep_inputs
    else c4_empty_inputs

/-- Sync configuration for the idempotence witness: a "today" request
with an intraday series and no fallback. -/
def c7_cfg : SyncCfg :=
  { prov := fun _ => c1w_inputs
    date := 10
    fallback_days := 0
    uid := "u1"
    tz := some "Europe/Rome"
    resolveOk := true
    window := fun _ => (0, 86400) }

/-- Daily heart-rate store: a valid fitbit row today (day 100) and a
valid withings row only on day 97. -/
def c8_store : String → Int → Option HRDailyRow := fun p d =>
  if p = "withings" ∧ d = 97 then some ⟨some 70, some 60, some 80⟩
  else if p = "fitbit" ∧ d = 100 then some ⟨some 150, some 140, some 155⟩
  else none

/-- A live reading of 150 bpm taken on day 100. -/
def c8_live : LatestHR := ⟨some 150, some 140, some 155, 100⟩

/-! ## Proofs

### Sample de-duplication and sorting -/

theorem except_error_bind {ε α β : Type} (e : ε) (f : α → Except ε β) :
    (Except.error e >>= f) = Except.error e := rfl

theorem except_ok_bind {ε α β : Type} (a : α) (f : α → Except ε β) :
    (Except.ok a >>= f) = f a := rfl

theorem except_pure_eq {ε α : Type} (a : α) :
    (pure a : Except ε α) = Except.ok a := rfl

theorem dedupeSamples_sublist (l : List Sample) (seen : List Int) :
    (dedupeSamples l seen).Sublist l := by
  induction l generalizing seen with
  | nil => simp [dedupeSamples]
  | cons s rest ih =>
    by_cases h : s.t ∈ seen
    · simp only [dedupeSamples, if_pos h]
      exact (ih seen).cons s
    · simp only [dedupeSamples, if_neg h]
      exact (ih (s.t :: seen)).cons₂ s

theorem mem_dedupeSamples_not_seen {x : Sample} :
    ∀ {l : List Sample} {seen : List Int},
      x ∈ dedupeSamples l seen → x.t ∉ seen := by
  intro l
  induction l with
  | nil => intro seen h; simp [dedupeSamples] at h
  | cons s rest ih =>
    intro seen h
    by_cases hs : s.t ∈ seen
    · simp only [dedupeSamples, if_pos hs] at h
      exact ih h
    · simp only [dedupeSamples, if_neg hs, List.mem_cons] at h
      rcases h with rfl | h
      · exact hs
      · intro hx
        exact ih h (List.mem_cons_of_mem _ hx)

theorem dedupeSamples_nodup_t (l : List Sample) (seen : List Int) :
    ((dedupeSamples l seen).map Sample.t).Nodup := by
  induction l generalizing seen with
  | nil => simp [dedupeSamples]
  | cons s rest ih =>
    by_cases h : s.t ∈ seen
    · simpa only [dedupeSamples, if_pos h] using ih seen
    · simp only [dedupeSamples, if_neg h, List.map_cons, List.nodup_cons]
      refine ⟨?_, ih (s.t :: seen)⟩
      intro hmem
      rcases List.mem_map.1 hmem with ⟨y, hy, hyt⟩
      exact mem_dedupeSamples_not_seen hy (by simp [hyt])

theorem sortSamples_sorted (l : List Sample) :
    (sortSamples l).Sorted (fun a b => a.t ≤ b.t) :=
  List.sorted_insertionSort _ l

theorem sortSamples_perm (l : List Sample) :
    (sortSamples l).Perm l :=
  List.perm_insertionSort _ l

theorem pairwise_lt_of_sorted_nodup {l : List Sample}
    (hs : l.Sorted (fun a b => a.t ≤ b.t))
    (hn : (l.map Sample.t).Nodup) :
    l.Pairwise (fun a b => a.t < b.t) := by
  have hne : l.Pairwise (fun a b => a.t ≠ b.t) := List.pairwise_map.1 hn
  exact (hs.and hne).imp (fun h => lt_of_le_of_ne h.1 h.2)

/-- The withings post-processing (de-dupe, then sort) yields a strictly
increasing timestamp sequence. -/
theorem sortDedupe_strict (l : List Sample) :
    (sortSamples (dedupeSamples l [])).Pairwise (fun a b => a.t < b.t) := by
  apply pairwise_lt_of_sorted_nodup (sortSamples_sorted _)
  have hperm : ((sortSamples (dedupeSamples l [])).map Sample.t).Perm
      ((dedupeSamples l []).map Sample.t) := (sortSamples_perm _).map _
  exact hperm.nodup_iff.2 (dedupeSamples_nodup_t l [])

/-- The Fitbit post-processing (sort, then de-dupe) yields a strictly
increasing timestamp sequence. -/
theorem dedupeSorted_strict (l : List Sample) :
    (dedupeSamples (sortSamples l) []).Pairwise (fun a b => a.t < b.t) := by
  apply pairwise_lt_of_sorted_nodup
  · exact List.Pairwise.sublist (dedupeSamples_sublist _ _) (sortSamples_sorted l)
  · exact dedupeSamples_nodup_t _ []

theorem collect_ok_shape {so : Val} {key : String} {out : List Sample}
    (h : _collect_metric_samples so key = .ok out) :
    ∃ raw, out = sortSamples (dedupeSamples raw []) := by
  unfold _collect_metric_samples at h
  cases hr : collectRawSamples so key with
  | error e => rw [hr] at h; exact absurd h (by simp [Except.map])
  | ok raw =>
    rw [hr] at h
    simp only [Except.map, Except.ok.injEq] at h
    exact ⟨raw, h.symm⟩

theorem fitbit_ok_shape {j : List (String × Val)} {base : Int}
    {out : List Sample}
    (h : fitbit_intraday_parse j base = .ok out) :
    out = [] ∨ ∃ raw, out = dedupeSamples (sortSamples raw) [] := by
  unfold fitbit_intraday_parse at h
  cases hds : pyGet (if (dictGet j "activities-heart-intraday").truthy
      then dictGet j "activities-heart-intraday" else .dict [])
      "dataset" with
  | error e =>
    rw [hds, except_error_bind] at h
    exact Except.noConfusion h
  | ok ds =>
    rw [hds, except_ok_bind] at h
    cases hdata : (if ds.truthy then ds else Val.list []) with
    | list rows =>
      rw [hdata] at h
      dsimp only at h
      cases hm : rows.mapM (fun pt => do
          let t ← pyGet pt "time"
          let v ← pyGet pt "value"
          match t, v with
          | .str ts, .num vq =>
            match parseHHMMSS ts with
            | some secs => pure (some (Sample.mk (base + secs) vq))
            | none => pure none
          | _, _ => pure (none : Option Sample)) with
      | error e =>
        rw [hm, except_error_bind] at h
        exact Except.noConfusion h
      | ok opts =>
        rw [hm, except_ok_bind, except_pure_eq] at h
        exact Or.inr ⟨opts.filterMap id, (Except.ok.injEq _ _ ▸ h).symm⟩
    | num q =>
      rw [hdata, except_pure_eq] at h
      exact Or.inl (Except.ok.injEq _ _ ▸ h).symm
    | str s =>
      rw [hdata, except_pure_eq] at h
      exact Or.inl (Except.ok.injEq _ _ ▸ h).symm
    | dict kvs =>
      rw [hdata, except_pure_eq] at h
      exact Or.inl (Except.ok.injEq _ _ ▸ h).symm
    | null =>
      rw [hdata, except_pure_eq] at h
      exact Or.inl (Except.ok.injEq _ _ ▸ h).symm

/-! ### Claim C9 -/

/-- C9 (amended): every successfully flattened intraday sample list —
from any accepted shape, in the withings collector and in the Fitbit
parser — is strictly sorted by timestamp (hence has at most one sample
per timestamp); samples with wrong-typed fields or unparsable timestamps
are skipped without error in the list shape and in the metric-map shape.
(In the map-with-`"data"`-list shape a sample entry that is not an object
raises instead of being skipped; see the counterexample.) -/
theorem intraday_flatten_sorted_unique :
    (∀ (so : Val) (key : String) (out : List Sample),
        _collect_metric_samples so key = .ok out →
        out.Pairwise (fun a b => a.t < b.t))
    ∧ (∀ (j : List (String × Val)) (base : Int) (out : List Sample),
        fitbit_intraday_parse j base = .ok out →
        out.Pairwise (fun a b => a.t < b.t))
    ∧ (∀ (xs : List Val) (key : String),
        ∃ out, _collect_metric_samples (.list xs) key = .ok out)
    ∧ (∀ (kvs : List (String × Val)) (key : String)
        (m : List (String × Val)),
        dictGet kvs key = .dict m →
        ∃ out, _collect_metric_samples (.dict kvs) key = .ok out) := by
  refine ⟨?_, ?_, ?_, ?_⟩
  · intro so key out h
    obtain ⟨raw, rfl⟩ := collect_ok_shape h
    exact sortDedupe_strict raw
  · intro j base out h
    rcases fitbit_ok_shape h with rfl | ⟨raw, rfl⟩
    · exact List.Pairwise.nil
    · exact dedupeSorted_strict raw
  · intro xs key
    exact ⟨_, rfl⟩
  · intro kvs key m hm
    refine ⟨sortSamples (dedupeSamples (m.filterMap (fun e =>
      match pyParseInt e.1, e.2 with
      | some tsI, .num vq => some ⟨tsI, vq⟩
      | _, _ => none)) []), ?_⟩
    unfold _collect_metric_samples collectRawSamples
    dsimp only
    rw [hm]
    rfl

/-- C9 counterexample: in the accepted map-with-`"data"`-list shape, a
sample entry of the wrong type (not an object) makes the whole collection
raise instead of being skipped. -/
theorem collect_fails_on_nondict_data_entry :
    _collect_metric_samples (.dict [("data", .list [.num 42])]) "steps"
      = .error "AttributeError" := by
  rfl

/-- C9 witness: a concrete metric-map payload with unordered keys
flattens to a strictly sorted, de-duplicated list. -/
theorem intraday_flatten_sorted_unique_witness :
    _collect_metric_samples
        (.dict [("steps", .dict [("30", .num 5), ("10", .num 3)])]) "steps"
      = .ok [⟨10, 3⟩, ⟨30, 5⟩]
    ∧ List.Pairwise (fun (a b : Sample) => a.t < b.t)
        [(⟨10, 3⟩ : Sample), ⟨30, 5⟩] := by
  have h : _collect_metric_samples
      (.dict [("steps", .dict [("30", .num 5), ("10", .num 3)])]) "steps"
      = .ok [⟨10, 3⟩, ⟨30, 5⟩] := by decide
  exact ⟨h, intraday_flatten_sorted_unique.1 _ _ _ h⟩

/-! ### Claim C1 -/

/-- C1 (amended): whenever `fetch_for` consults the intraday series —
i.e. the requested day is today, or the roll-up produced no steps (or a
zero), or no distance — and the series was obtained, each additive metric
is reconciled as `max(rollup-or-0, intraday sum)` (distance after
rounding to km); hence the canonical value is never below the roll-up or
below the intraday sum.  When the intraday sum is not positive the
roll-up value is kept unchanged (no zero is synthesized). -/
theorem fetch_for_additive_max_merge :
    ∀ (inp : FetchInputs) (sv : Val) (d : Int),
      fetch_intraday_cond inp = true →
      inp.series = some sv →
      ((intraday_sums sv).1 > 0 →
        (fetch_for inp d).steps
          = some (max ((rollup_steps_field inp).getD 0) (intraday_sums sv).1)
        ∧ ((rollup_steps_field inp).getD 0 ≤ ((fetch_for inp d).steps).getD 0
          ∧ (intraday_sums sv).1 ≤ ((fetch_for inp d).steps).getD 0))
      ∧ (¬ (intraday_sums sv).1 > 0 →
        (fetch_for inp d).steps = rollup_steps_field inp)
      ∧ ((intraday_sums sv).2 > 0 →
        (fetch_for inp d).distanceKm
          = some (max ((rollup_dist_field inp).getD 0)
              (round2 ((intraday_sums sv).2 / 1000)))
        ∧ ((rollup_dist_field inp).getD 0 ≤ ((fetch_for inp d).distanceKm).getD 0
          ∧ round2 ((intraday_sums sv).2 / 1000)
              ≤ ((fetch_for inp d).distanceKm).getD 0))
      ∧ (¬ (intraday_sums sv).2 > 0 →
        (fetch_for inp d).distanceKm = rollup_dist_field inp) := by
  intro inp sv d hcond hsv
  have hsteps : (fetch_for inp d).steps = fetch_for_steps inp := rfl
  have hdist : (fetch_for inp d).distanceKm = fetch_for_distance inp := rfl
  rw [hsteps, hdist]
  unfold fetch_for_steps fetch_for_distance
  rw [hcond, hsv]
  dsimp only
  refine ⟨?_, ?_, ?_, ?_⟩
  · intro hpos
    rw [if_pos hpos]
    exact ⟨rfl, le_max_left _ _, le_max_right _ _⟩
  · intro hneg
    rw [if_neg hneg]
  · intro hpos
    rw [if_pos hpos]
    exact ⟨rfl, le_max_left _ _, le_max_right _ _⟩
  · intro hneg
    rw [if_neg hneg]

unseal Rat.mul Rat.add Rat.inv Rat.sub in
/-- C1 counterexample: for a past day whose roll-up already has steps and
distance, the intraday series (summing to 500 steps) is never consulted:
the canonical value stays 100, strictly below both the intraday sum and
`max(rollup, intraday sum)`. -/
theorem fetch_for_not_always_max_merge :
    fetch_intraday_cond c1_inputs = false
    ∧ c1_inputs.series = some c1_series
    ∧ (fetch_for c1_inputs 0).steps = some 100
    ∧ (intraday_sums c1_series).1 = 500
    ∧ ¬ (fetch_for c1_inputs 0).steps
        = some (max ((rollup_steps_field c1_inputs).getD 0)
            (intraday_sums c1_series).1) := by
  exact ⟨by decide, rfl, by decide, by decide, by decide⟩

unseal Rat.mul Rat.add Rat.inv Rat.sub in
/-- C1 witness: a "today" sync with roll-up 100 steps and intraday sums
(30 steps, 2500 m) produces `max(rollup, intraday sum)` for both additive
metrics. -/
theorem fetch_for_additive_max_merge_witness :
    (fetch_for c1w_inputs 10).steps
      = some (max ((rollup_steps_field c1w_inputs).getD 0)
          (intraday_sums c1w_series).1)
    ∧ (fetch_for c1w_inputs 10).distanceKm
      = some (max ((rollup_dist_field c1w_inputs).getD 0)
          (round2 ((intraday_sums c1w_series).2 / 1000))) := by
  have h := fetch_for_additive_max_merge c1w_inputs c1w_series 10
    (by decide) rfl
  exact ⟨(h.1 (by decide)).1, (h.2.2.1 (by decide)).1⟩

/-! ### Claim C2 -/

/-- C2 (amended): for a user with a configured *nonzero* high threshold
and a nonzero candidate value, a high notification fires exactly when the
candidate exceeds the threshold and (no value was previously notified, or
the candidate differs from it by at least 5, or no notification time is
recorded, or *strictly more than* one hour has elapsed); symmetrically
for the low side.  (The code tests `>` on `timedelta(hours=1)` and
truthiness of threshold and value.) -/
theorem threshold_fire_rule :
    ∀ (user : UserRow) (l : LatestHR) (n : NotifState) (now : Int)
      (dh dl : Bool),
      truthyStr user.email = true →
      ((∀ h v, user.hr_threshold_high = some h → h ≠ 0 →
          l.max = some v → v ≠ 0 →
          ((check_user_thresholds user (some l) (some n) now true dl).fired_high
              = true
            ↔ (v > h ∧ (n.last_max_notified = none
              ∨ |v - n.last_max_notified.getD 0| ≥ 5
              ∨ n.last_notification_time = none
              ∨ now - n.last_notification_time.getD 0 > 3600))))
      ∧ (∀ lo v, user.hr_threshold_low = some lo → lo ≠ 0 →
          l.min = some v → v ≠ 0 →
          ((check_user_thresholds user (some l) (some n) now dh true).fired_low
              = true
            ↔ (v < lo ∧ (n.last_min_notified = none
              ∨ |v - n.last_min_notified.getD 0| ≥ 5
              ∨ n.last_notification_time = none
              ∨ now - n.last_notification_time.getD 0 > 3600))))) := by
  intro user l n now dh dl hE
  constructor
  · intro h v hH hh0 hM hv0
    simp only [check_user_thresholds, hE, Bool.not_true, if_false,
      Bool.false_eq_true]
    simp only [truthyQ, hH, hM, Bool.and_eq_true, Bool.or_eq_true,
      Bool.and_true, decide_eq_true_eq, bne_iff_ne, ne_eq,
      Option.getD_some, Option.isNone_iff_eq_none, Option.getD_none]
    tauto
  · intro lo v hL hl0 hM hv0
    simp only [check_user_thresholds, hE, Bool.not_true, if_false,
      Bool.false_eq_true]
    simp only [apply_ite (fun m : NotifState => m.last_min_notified),
      ite_self]
    simp only [truthyQ, hL, hM, Bool.and_eq_true, Bool.or_eq_true,
      Bool.and_true, decide_eq_true_eq, bne_iff_ne, ne_eq,
      Option.getD_some, Option.isNone_iff_eq_none, Option.getD_none]
    tauto

unseal Rat.mul Rat.add Rat.inv Rat.sub in
/-- C2 counterexample, three parts.  (1) With threshold 100, a reading of
103 exactly one hour (3600 s) after the last notification does not fire,
although the claim's "at least 1 hour has elapsed" holds.  (2) With a
configured high threshold of 0 and a cold-start reading of 50 > 0,
nothing fires (the guard tests truthiness, not presence).  (3) With a low
threshold of 60 and a candidate minimum of 0 < 60 on cold start, nothing
fires. -/
theorem threshold_fire_rule_boundary_counterexample :
    ((check_user_thresholds ⟨some "u", some 100, none⟩
        (some ⟨some 100, some 100, some 103, 0⟩)
        (some ⟨some 100, none, some 0⟩) 3600 true true).fired_high = false
      ∧ (103 : ℚ) > 100 ∧ ((3600 : Int) - 0 ≥ 3600))
    ∧ ((check_user_thresholds ⟨some "u", some 0, none⟩
        (some ⟨some 40, some 40, some 50, 0⟩)
        (some ⟨none, none, some 0⟩) 10 true true).fired_high = false
      ∧ (50 : ℚ) > 0)
    ∧ ((check_user_thresholds ⟨some "u", none, some 60⟩
        (some ⟨some 30, some 0, some 90, 0⟩)
        (some ⟨none, none, some 0⟩) 10 true true).fired_low = false
      ∧ (0 : ℚ) < 60) := by
  refine ⟨⟨by decide, by decide, by decide⟩, ⟨by decide, by decide⟩,
    ⟨by decide, by decide⟩⟩

unseal Rat.mul Rat.add Rat.inv Rat.sub in
/-- C2 witness: cold start (`last_max_notified=None`), threshold 100,
reading 105 — the rule says it fires, and it does. -/
theorem threshold_fire_rule_witness :
    (check_user_thresholds ⟨some "u", some 100, none⟩
        (some ⟨some 100, some 100, some 105, 0⟩)
        (some ⟨none, none, some 0⟩) 10 true true).fired_high = true := by
  have h := (threshold_fire_rule ⟨some "u", some 100, none⟩
    ⟨some 100, some 100, some 105, 0⟩ ⟨none, none, some 0⟩ 10 true true
    (by decide)).1 100 105 rfl (by norm_num) rfl (by norm_num)
  exact h.2 ⟨by norm_num, Or.inl rfl⟩

/-! ### Claim C3 -/

/-- C3: a dispatch failure on either side leaves the corresponding
`last_*_notified` unchanged; if both dispatches fail the stored
`HeartRateNotification` row and the queued alerts are exactly as before;
and any change to `last_max_notified` / `last_min_notified` /
`last_notification_time` requires the corresponding dispatch to have
succeeded. -/
theorem dispatch_failure_preserves_state :
    ∀ (user : UserRow) (l : LatestHR) (n : NotifState) (now : Int)
      (dh dl : Bool),
      ((dh = false →
        (check_user_thresholds user (some l) (some n) now dh dl).notif.map
            (fun m => m.last_max_notified) = some n.last_max_notified)
      ∧ (dl = false →
        (check_user_thresholds user (some l) (some n) now dh dl).notif.map
            (fun m => m.last_min_notified) = some n.last_min_notified)
      ∧ (dh = false → dl = false →
        (check_user_thresholds user (some l) (some n) now dh dl).notif = some n
        ∧ (check_user_thresholds user (some l) (some n) now dh dl).alerts = [])
      ∧ ((check_user_thresholds user (some l) (some n) now dh dl).notif.map
            (fun m => m.last_max_notified) ≠ some n.last_max_notified →
          dh = true)
      ∧ ((check_user_thresholds user (some l) (some n) now dh dl).notif.map
            (fun m => m.last_min_notified) ≠ some n.last_min_notified →
          dl = true)
      ∧ ((check_user_thresholds user (some l) (some n) now dh dl).notif.map
            (fun m => m.last_notification_time)
            ≠ some n.last_notification_time →
          dh = true ∨ dl = true)) := by
  intro user l n now dh dl
  by_cases hE : truthyStr user.email = true
  · cases dh <;> cases dl <;>
      simp [check_user_thresholds, hE,
        apply_ite (fun m : NotifState => m.last_max_notified),
        apply_ite (fun m : NotifState => m.last_min_notified),
        apply_ite (fun m : NotifState => m.last_notification_time),
        ite_self]
  · have hE2 : truthyStr user.email = false := by
      cases h : truthyStr user.email
      · rfl
      · exact absurd h hE
    simp [check_user_thresholds, hE2]

/-- C3 witness: a firing high reading whose dispatch fails leaves the
notification row untouched. -/
theorem dispatch_failure_preserves_state_witness :
    (check_user_thresholds ⟨some "u", some 100, none⟩
        (some ⟨some 100, some 100, some 105, 0⟩)
        (some ⟨none, none, some 0⟩) 10 false false).notif
      = some ⟨none, none, some 0⟩ := by
  exact ((dispatch_failure_preserves_state ⟨some "u", some 100, none⟩
    ⟨some 100, some 100, some 105, 0⟩ ⟨none, none, some 0⟩ 10
    false false).2.2.1 rfl rfl).1

/-! ### Claim C10 -/

/-- C10: a configured threshold equal to 0, or a candidate max/min equal
to 0, makes the corresponding check short-circuit on truthiness: the side
never fires and its `last_*_notified` is unchanged; when both sides are
degenerate the stored row is returned exactly as it was and no alert is
queued. -/
theorem zero_threshold_or_value_skips_check :
    ∀ (user : UserRow) (l : LatestHR) (n : NotifState) (now : Int)
      (dh dl : Bool),
      ((user.hr_threshold_high = some 0 ∨ l.max = some 0 →
        (check_user_thresholds user (some l) (some n) now dh dl).fired_high
            = false
        ∧ (check_user_thresholds user (some l) (some n) now dh dl).notif.map
            (fun m => m.last_max_notified) = some n.last_max_notified)
      ∧ (user.hr_threshold_low = some 0 ∨ l.min = some 0 →
        (check_user_thresholds user (some l) (some n) now dh dl).fired_low
            = false
        ∧ (check_user_thresholds user (some l) (some n) now dh dl).notif.map
            (fun m => m.last_min_notified) = some n.last_min_notified)
      ∧ ((user.hr_threshold_high = some 0 ∨ l.max = some 0) →
        (user.hr_threshold_low = some 0 ∨ l.min = some 0) →
        check_user_thresholds user (some l) (some n) now dh dl
          = ⟨some n, [], false, false⟩)) := by
  intro user l n now dh dl
  by_cases hE : truthyStr user.email = true
  · have hhi : user.hr_threshold_high = some 0 ∨ l.max = some 0 →
        (truthyQ user.hr_threshold_high = false ∨ truthyQ l.max = false) := by
      rintro (hz | hz)
      · exact Or.inl (by simp [truthyQ, hz])
      · exact Or.inr (by simp [truthyQ, hz])
    have hlo : user.hr_threshold_low = some 0 ∨ l.min = some 0 →
        (truthyQ user.hr_threshold_low = false ∨ truthyQ l.min = false) := by
      rintro (hz | hz)
      · exact Or.inl (by simp [truthyQ, hz])
      · exact Or.inr (by simp [truthyQ, hz])
    refine ⟨?_, ?_, ?_⟩
    · intro hz
      rcases hhi hz with hf | hf <;>
        simp [check_user_thresholds, hE, hf,
          apply_ite (fun m : NotifState => m.last_max_notified), ite_self]
    · intro hz
      rcases hlo hz with hf | hf <;>
        simp [check_user_thresholds, hE, hf,
          apply_ite (fun m : NotifState => m.last_max_notified),
          apply_ite (fun m : NotifState => m.last_min_notified), ite_self]
    · intro hz1 hz2
      rcases hhi hz1 with hf1 | hf1 <;> rcases hlo hz2 with hf2 | hf2 <;>
        simp [check_user_thresholds, hE, hf1, hf2]
  · have hE2 : truthyStr user.email = false := by
      cases h : truthyStr user.email
      · rfl
      · exact absurd h hE
    simp [check_user_thresholds, hE2]

unseal Rat.mul Rat.add Rat.inv Rat.sub in
/-- C10 witness: threshold high = 0 with a reading of 50 > 0 on cold
start: the check is skipped and the row is unchanged. -/
theorem zero_threshold_or_value_skips_check_witness :
    check_user_thresholds ⟨some "u", some 0, some 0⟩
        (some ⟨some 40, some 40, some 50, 0⟩)
        (some ⟨none, none, some 0⟩) 10 true true
      = ⟨some ⟨none, none, some 0⟩, [], false, false⟩ := by
  exact (zero_threshold_or_value_skips_check ⟨some "u", some 0, some 0⟩
    ⟨some 40, some 40, some 50, 0⟩ ⟨none, none, some 0⟩ 10 true true).2.2
    (Or.inl rfl) (Or.inl rfl)

/-! ### Claim C8 -/

theorem latest_hr_loop_found (store : String → Int → Option HRDailyRow)
    (today : Int) :
    ∀ (fuel i j : Nat) (hr : HRDailyRow),
      i ≤ j → j < i + fuel →
      (∀ k : Nat, i ≤ k → k < j →
        ∀ r, store "withings" (today - (k : Int)) = some r →
          ¬(truthyQ r.hr_max = true ∧ truthyQ r.hr_min = true)) →
      store "withings" (today - (j : Int)) = some hr →
      truthyQ hr.hr_max = true → truthyQ hr.hr_min = true →
      latest_hr_loop store today i fuel
        = some ⟨hr.hr_average, hr.hr_min, hr.hr_max, today - (j : Int)⟩ := by
  intro fuel
  induction fuel with
  | zero =>
    intro i j hr hij hlt _ _ _ _
    omega
  | succ fuel ih =>
    intro i j hr hij hlt hprev hst hmx hmn
    by_cases hej : i = j
    · subst hej
      simp only [latest_hr_loop, get_heart_rate_daily, hst, hmx, hmn,
        and_self, if_true]
    · have hij2 : i < j := lt_of_le_of_ne hij hej
      have step : latest_hr_loop store today i (fuel + 1)
          = latest_hr_loop store today (i + 1) fuel := by
        simp only [latest_hr_loop, get_heart_rate_daily]
        cases hsi : store "withings" (today - (i : Int)) with
        | none => rfl
        | some r =>
          have := hprev i le_rfl hij2 r hsi
          dsimp only
          rw [if_neg this]
      rw [step]
      exact ih (i + 1) j hr hij2 (by omega)
        (fun k hk1 hk2 => hprev k (by omega) hk2) hst hmx hmn

theorem latest_hr_loop_exhausted (store : String → Int → Option HRDailyRow)
    (today : Int) :
    ∀ (fuel i : Nat),
      (∀ k : Nat, i ≤ k → k < i + fuel →
        ∀ r, store "withings" (today - (k : Int)) = some r →
          ¬(truthyQ r.hr_max = true ∧ truthyQ r.hr_min = true)) →
      latest_hr_loop store today i fuel = none := by
  intro fuel
  induction fuel with
  | zero => intro i _; rfl
  | succ fuel ih =>
    intro i hprev
    have step : latest_hr_loop store today i (fuel + 1)
        = latest_hr_loop store today (i + 1) fuel := by
      simp only [latest_hr_loop, get_heart_rate_daily]
      cases hsi : store "withings" (today - (i : Int)) with
      | none => rfl
      | some r =>
        have := hprev i le_rfl (by omega) r hsi
        dsimp only
        rw [if_neg this]
    rw [step]
    exact ih (i + 1) (fun k hk1 hk2 => hprev k (by omega) (by omega))

/-- C8 (amended): the alert engine's candidate reading is the most recent
*withings* daily-aggregate row with truthy `hr_max` and `hr_min`,
scanning today and then up to 7 prior days (8 in total); no candidate is
produced when no day in the window qualifies.  No live/real-time reading
and no other provider is ever consulted (see the counterexample). -/
theorem hr_candidate_selection :
    (∀ (store : String → Int → Option HRDailyRow) (today : Int)
      (j : Nat) (hr : HRDailyRow), j < 8 →
      (∀ k : Nat, k < j →
        ∀ r, store "withings" (today - (k : Int)) = some r →
          ¬(truthyQ r.hr_max = true ∧ truthyQ r.hr_min = true)) →
      store "withings" (today - (j : Int)) = some hr →
      truthyQ hr.hr_max = true → truthyQ hr.hr_min = true →
      get_latest_heart_rate store today
        = some ⟨hr.hr_average, hr.hr_min, hr.hr_max, today - (j : Int)⟩)
    ∧ (∀ (store : String → Int → Option HRDailyRow) (today : Int),
      (∀ k : Nat, k < 8 →
        ∀ r, store "withings" (today - (k : Int)) = some r →
          ¬(truthyQ r.hr_max = true ∧ truthyQ r.hr_min = true)) →
      get_latest_heart_rate store today = none) := by
  constructor
  · intro store today j hr hj hprev hst hmx hmn
    exact latest_hr_loop_found store today 8 0 j hr (Nat.zero_le j)
      (by omega) (fun k _ hk2 => hprev k hk2) hst hmx hmn
  · intro store today hprev
    exact latest_hr_loop_exhausted store today 8 0
      (fun k _ hk2 => hprev k (by omega))

/-- C8 counterexample: with a recent live reading of 150 bpm and a valid
fitbit daily row for today in the store, the engine still returns the
withings row from three days earlier — the claim's provider-priority
selection would return the live reading. -/
theorem hr_candidate_ignores_live_and_other_providers :
    get_latest_heart_rate c8_store 100 = some ⟨some 70, some 60, some 80, 97⟩
    ∧ claimed_candidate (some c8_live) true ["withings", "fitbit"]
        c8_store 100 = some c8_live
    ∧ c8_store "fitbit" 100 = some ⟨some 150, some 140, some 155⟩
    ∧ get_latest_heart_rate c8_store 100
        ≠ claimed_candidate (some c8_live) true ["withings", "fitbit"]
            c8_store 100 := by
  refine ⟨by decide, by decide, by decide, by decide⟩

/-- C8 witness: in a store whose only valid withings row is 3 days old,
the engine selects that row. -/
theorem hr_candidate_selection_witness :
    get_latest_heart_rate c8_store 100
      = some ⟨some 70, some 60, some 80, 97⟩ := by
  have h := hr_candidate_selection.1 c8_store 100 3
    ⟨some 70, some 60, some 80⟩ (by omega) ?_ (by decide) (by decide)
    (by decide)
  · simpa using h
  · intro k hk r hget
    exfalso
    revert hget
    interval_cases k <;> simp [c8_store]

/-! ### Claim C4 -/

theorem fallback_loop_found (prov : Int → FetchInputs) (date : Int) :
    ∀ (n i j : Nat), 1 ≤ i → i ≤ j → j < i + n →
      (∀ k : Nat, i ≤ k → k < j →
        _has_any (fetch_for (prov (date - (k : Int))) (date - (k : Int)))
          = false) →
      _has_any (fetch_for (prov (date - (j : Int))) (date - (j : Int)))
        = true →
      fallback_loop prov date i n
        = some { fetch_for (prov (date - (j : Int))) (date - (j : Int)) with
            fallbackFrom := some date } := by
  intro n
  induction n with
  | zero => intro i j _ hij hlt _ _; omega
  | succ n ih =>
    intro i j h1i hij hlt hprev hj
    by_cases hej : i = j
    · subst hej
      simp only [fallback_loop, hj, if_true]
    · have hij2 : i < j := lt_of_le_of_ne hij hej
      have step : fallback_loop prov date i (n + 1)
          = fallback_loop prov date (i + 1) n := by
        simp only [fallback_loop]
        rw [hprev i le_rfl hij2]
        simp
      rw [step]
      exact ih (i + 1) j (by omega) hij2 (by omega)
        (fun k hk1 hk2 => hprev k (by omega) hk2) hj

theorem fallback_loop_exhausted (prov : Int → FetchInputs) (date : Int) :
    ∀ (n i : Nat),
      (∀ k : Nat, i ≤ k → k < i + n →
        _has_any (fetch_for (prov (date - (k : Int))) (date - (k : Int)))
          = false) →
      fallback_loop prov date i n = none := by
  intro n
  induction n with
  | zero => intro i _; rfl
  | succ n ih =>
    intro i hprev
    have step : fallback_loop prov date i (n + 1)
        = fallback_loop prov date (i + 1) n := by
      simp only [fallback_loop]
      rw [hprev i le_rfl (by omega)]
      simp
    rw [step]
    exact ih (i + 1) (fun k hk1 hk2 => hprev k (by omega) (by omega))

/-- C4 (amended): emptiness of a day is judged on the additive metrics
only (`_has_any`: non-null `steps` or `distanceKm`); calories and sleep
are never consulted.  When the requested day's sync yields null steps
and null distance and fallback is enabled, `daily_metrics` re-runs the
sync for `date-1, date-2, ...` up to the lookback bound and returns the
values of the first day with a non-null steps or distance, tagged with
the originally requested date as `fallbackFrom` — a day with only
calories or sleep data is skipped (see the counterexample); when the
lookback is exhausted it returns the requested-day record itself, whose
steps and distance are null — an explicit no-data result, not a
synthesized zero. -/
theorem daily_metrics_fallback_spec :
    (∀ (prov : Int → FetchInputs) (date : Int) (fb j : Nat),
      (fetch_for (prov date) date).steps = none →
      (fetch_for (prov date) date).distanceKm = none →
      1 ≤ j → j ≤ fb →
      (∀ k : Nat, 1 ≤ k → k < j →
        _has_any (fetch_for (prov (date - (k : Int))) (date - (k : Int)))
          = false) →
      _has_any (fetch_for (prov (date - (j : Int))) (date - (j : Int)))
        = true →
      daily_metrics prov date fb
        = { fetch_for (prov (date - (j : Int))) (date - (j : Int)) with
            fallbackFrom := some date })
    ∧ (∀ (prov : Int → FetchInputs) (date : Int) (fb : Nat),
      (fetch_for (prov date) date).steps = none →
      (fetch_for (prov date) date).distanceKm = none →
      (∀ k : Nat, 1 ≤ k → k ≤ fb →
        _has_any (fetch_for (prov (date - (k : Int))) (date - (k : Int)))
          = false) →
      daily_metrics prov date fb = fetch_for (prov date) date
      ∧ (daily_metrics prov date fb).steps = none
      ∧ (daily_metrics prov date fb).distanceKm = none
      ∧ (daily_metrics prov date fb).fallbackFrom = none) := by
  constructor
  · intro prov date fb j hs hd h1j hjfb hprev hj
    have hempty : _has_any (fetch_for (prov date) date) = false := by
      simp [_has_any, hs, hd]
    have hfb : fb > 0 := lt_of_lt_of_le (by omega) hjfb
    unfold daily_metrics
    dsimp only
    rw [hempty]
    simp only [Bool.not_false]
    rw [if_pos (⟨trivial, hfb⟩ : True ∧ fb > 0)]
    rw [fallback_loop_found prov date fb 1 j le_rfl h1j (by omega) hprev hj]
  · intro prov date fb hs hd hprev
    have hempty : _has_any (fetch_for (prov date) date) = false := by
      simp [_has_any, hs, hd]
    have hres : daily_metrics prov date fb = fetch_for (prov date) date := by
      unfold daily_metrics
      dsimp only
      rw [hempty]
      simp only [Bool.not_false]
      by_cases hfb : fb > 0
      · rw [if_pos (⟨trivial, hfb⟩ : True ∧ fb > 0)]
        rw [fallback_loop_exhausted prov date fb 1
          (fun k hk1 hk2 => hprev k hk1 (by omega))]
      · rw [if_neg (fun hand => hfb hand.2)]
    refine ⟨hres, ?_, ?_, ?_⟩
    · rw [hres]; exact hs
    · rw [hres]; exact hd
    · rw [hres]; rfl

unseal Rat.mul Rat.add Rat.inv Rat.sub in
/-- C4 counterexample: with lookback 3, day `date-1` has a non-null
tracked metric (`sleepHours = 8`) and is therefore non-empty in the
frozen claim's sense, but its steps and distance are null, so the code
skips it and returns day `date-2`'s values — the result is not the
first non-empty day's. -/
theorem daily_metrics_fallback_skips_sleep_only_day :
    (fetch_for (c4b_prov 9) 9).sleepHours = some 8
    ∧ (fetch_for (c4b_prov 9) 9).steps = none
    ∧ (fetch_for (c4b_prov 9) 9).distanceKm = none
    ∧ daily_metrics c4b_prov 10 3
        = { date := 8, steps := some 50, calories := none,
            sleepHours := none, distanceKm := none,
            fallbackFrom := some 10 }
    ∧ (daily_metrics c4b_prov 10 3).date ≠ 9 := by
  refine ⟨by decide, by decide, by decide, by decide, by decide⟩

unseal Rat.mul Rat.add Rat.inv Rat.sub in
/-- C4 witness: lookback 3, data only on `date - 2`: the result carries
the values of `date - 2` and fallback origin `date`; and with no data
anywhere the requested-day record itself (all null) is returned. -/
theorem daily_metrics_fallback_spec_witness :
    daily_metrics c4_prov 10 3
      = { date := 8, steps := some 50, calories := none, sleepHours := none,
          distanceKm := none, fallbackFrom := some 10 }
    ∧ daily_metrics c4_prov_empty 10 3
      = { date := 10, steps := none, calories := none, sleepHours := none,
          distanceKm := none, fallbackFrom := none } := by
  constructor
  · have h := daily_metrics_fallback_spec.1 c4_prov 10 3 2
      (by decide) (by decide) (by omega) (by omega) ?_ (by decide)
    · rw [h]; decide
    · intro k hk1 hk2
      interval_cases k
      decide
  · have h := (daily_metrics_fallback_spec.2 c4_prov_empty 10 3
      (by decide) (by decide) ?_).1
    · rw [h]; decide
    · intro k hk1 hk2
      interval_cases k <;> decide

/-! ### Claim C5 -/

/-- C5: storing an intraday sample set is replace-by-key: after ingesting
window A and then window B for the same
(user, provider, date, resolution) key, exactly B's samples and window
bounds are stored (never a union or append), other keys are untouched;
the same holds for `update_or_create_heart_rate_intraday`. -/
theorem intraday_replace_by_key :
    ∀ (m : Table IntradayKey IntradayData) (k : IntradayKey)
      (A B : IntradayData) (t1 t2 : Int),
      (_bulk_upsert_intraday (_bulk_upsert_intraday m [(k, A)] t1)
          [(k, B)] t2) k = some ⟨B, t2⟩
      ∧ (∀ q, q ≠ k →
          (_bulk_upsert_intraday (_bulk_upsert_intraday m [(k, A)] t1)
            [(k, B)] t2) q = m q)
      ∧ (∀ (hm : Table IntradayKey IntradayData)
          (sA eA sB eB : Int) (lA lB : List Sample),
          (update_or_create_heart_rate_intraday
            (update_or_create_heart_rate_intraday hm k sA eA lA t1)
            k sB eB lB t2) k = some ⟨⟨sB, eB, lB⟩, t2⟩) := by
  intro m k A B t1 t2
  refine ⟨?_, ?_, ?_⟩
  · simp [_bulk_upsert_intraday, Table.set]
  · intro q hq
    simp [_bulk_upsert_intraday, Table.set, hq]
  · intro hm sA eA sB eB lA lB
    unfold update_or_create_heart_rate_intraday
    cases hs : hm k <;> simp [Table.set]

/-- C5 witness: concrete overlapping windows A then B leave exactly B. -/
theorem intraday_replace_by_key_witness :
    (_bulk_upsert_intraday
        (_bulk_upsert_intraday (fun _ => none)
          [(⟨"u", "withings", 5, "var"⟩, ⟨0, 100, [⟨10, 1⟩]⟩)] 1)
        [(⟨"u", "withings", 5, "var"⟩, ⟨50, 150, [⟨60, 2⟩]⟩)] 2)
      ⟨"u", "withings", 5, "var"⟩ = some ⟨⟨50, 150, [⟨60, 2⟩]⟩, 2⟩
    ∧ (_bulk_upsert_intraday
        (_bulk_upsert_intraday (fun _ => none)
          [(⟨"u", "withings", 5, "var"⟩, ⟨0, 100, [⟨10, 1⟩]⟩)] 1)
        [(⟨"u", "withings", 5, "var"⟩, ⟨50, 150, [⟨60, 2⟩]⟩)] 2)
      ⟨"u", "withings", 6, "var"⟩ = none := by
  constructor
  · exact (intraday_replace_by_key (fun _ => none) ⟨"u", "withings", 5, "var"⟩
      ⟨0, 100, [⟨10, 1⟩]⟩ ⟨50, 150, [⟨60, 2⟩]⟩ 1 2).1
  · exact (intraday_replace_by_key (fun _ => none) ⟨"u", "withings", 5, "var"⟩
      ⟨0, 100, [⟨10, 1⟩]⟩ ⟨50, 150, [⟨60, 2⟩]⟩ 1 2).2.1
      ⟨"u", "withings", 6, "var"⟩ (by decide)

/-! ### Claim C6 -/

/-- C6: the daily upsert of an additive counter is last-write-wins: a
second upsert with a smaller value overwrites the stored value with the
smaller value; the store keeps at most one row per key (it is a map) and
enforces no max across calls.  Both the steps and the distance daily
upserts behave this way. -/
theorem daily_upsert_last_write_wins :
    ∀ (m : Table DailyKey StepsDailyData)
      (md : Table DailyKey DistanceDailyData) (k : DailyKey)
      (v1 v2 : Int) (c1 c2 : Option ℚ) (d1 d2 : ℚ) (t1 t2 : Int),
      v2 < v1 → d2 < d1 →
      ((_upsert_steps_daily (_upsert_steps_daily m k (some v1) c1 t1)
          k (some v2) c2 t2) k).map (fun r => r.data.steps)
        = some (some v2)
      ∧ ((_upsert_distance_daily (_upsert_distance_daily md k (some d1) t1)
          k (some d2) t2) k).map (fun r => r.data.distance_km)
        = some (some d2) := by
  intro m md k v1 v2 c1 c2 d1 d2 t1 t2 _ _
  constructor
  · unfold _upsert_steps_daily
    cases hs : m k <;> simp [Table.set]
  · unfold _upsert_distance_daily
    cases hs : md k <;> simp [Table.set]

/-- C6 witness: upsert 900 then 400 steps (and 3.0 then 1.5 km) for the
same key: the smaller values win. -/
theorem daily_upsert_last_write_wins_witness :
    ((_upsert_steps_daily (_upsert_steps_daily (fun _ => none)
        ⟨"u", "withings", 5⟩ (some 900) none 1)
        ⟨"u", "withings", 5⟩ (some 400) none 2)
      ⟨"u", "withings", 5⟩).map (fun r => r.data.steps) = some (some 400)
    ∧ ((_upsert_distance_daily (_upsert_distance_daily (fun _ => none)
        ⟨"u", "withings", 5⟩ (some 3) 1)
        ⟨"u", "withings", 5⟩ (some (3/2)) 2)
      ⟨"u", "withings", 5⟩).map (fun r => r.data.distance_km)
      = some (some (3/2)) := by
  exact daily_upsert_last_write_wins (fun _ => none) (fun _ => none)
    ⟨"u", "withings", 5⟩ 900 400 none none 3 (3/2) 1 2 (by omega)
    (by norm_num)

/-! ### Claim C7

The proof characterises one `daily_metrics` request as: the write log
(`run_log`, a function of the provider responses only) applied to the
initial state (`apply_run`).  Re-running the request therefore applies
the same log again, which changes nothing but the `updated_at` audit
columns. -/

theorem foldl_lastW (q : IntradayKey) :
    ∀ (rows : List (IntradayKey × IntradayData))
      (init : Option IntradayData),
      rows.foldl (fun acc kv => if kv.1 = q then some kv.2 else acc) init
        = match lastW rows q with
          | some v => some v
          | none => init := by
  intro rows
  induction rows with
  | nil => intro init; rfl
  | cons r rows ih =>
    intro init
    rw [List.foldl_cons, ih]
    have h2 : lastW (r :: rows) q
        = match lastW rows q with
          | some v => some v
          | none => if r.1 = q then some r.2 else none := by
      show List.foldl _ (if r.1 = q then some r.2 else none) rows = _
      rw [ih]
    rw [h2]
    cases lastW rows q with
    | some v => rfl
    | none => by_cases hq : r.1 = q <;> simp [hq]

theorem bulk_upsert_lookup
    (rows : List (IntradayKey × IntradayData)) :
    ∀ (m : Table IntradayKey IntradayData) (now : Int) (q : IntradayKey),
      _bulk_upsert_intraday m rows now q
        = match lastW rows q with
          | some v => some ⟨v, now⟩
          | none => m q := by
  induction rows with
  | nil => intro m now q; rfl
  | cons r rows ih =>
    intro m now q
    have hstep : _bulk_upsert_intraday m (r :: rows) now
        = _bulk_upsert_intraday (m.set r.1 ⟨r.2, now⟩) rows now := rfl
    rw [hstep, ih]
    have hcons : lastW (r :: rows) q
        = match lastW rows q with
          | some v => some v
          | none => if r.1 = q then some r.2 else none := by
      show List.foldl _ (if r.1 = q then some r.2 else none) rows = _
      rw [foldl_lastW]
    rw [hcons]
    cases hl : lastW rows q with
    | some v => rfl
    | none =>
      by_cases hq : r.1 = q
      · simp only [hq, if_true, Table.set, if_pos hq.symm]
      · simp only [hq, if_false, Table.set]
        rw [if_neg (fun h => hq h.symm)]

theorem bulk_upsert_strip_absorb (m : Table IntradayKey IntradayData)
    (rows : List (IntradayKey × IntradayData)) (t1 t2 : Int)
    (q : IntradayKey) :
    stripRow (_bulk_upsert_intraday
        (_bulk_upsert_intraday m rows t1) rows t2 q)
      = stripRow (_bulk_upsert_intraday m rows t1 q) := by
  rw [bulk_upsert_lookup, bulk_upsert_lookup]
  cases hl : lastW rows q <;> rfl

theorem steps_daily_absorb (m : Table DailyKey StepsDailyData)
    (k : DailyKey) (st : Option Int) (cal : Option ℚ) (t1 t2 : Int)
    (q : DailyKey) :
    stripRow (_upsert_steps_daily
        (_upsert_steps_daily m k st cal t1) k st cal t2 q)
      = stripRow (_upsert_steps_daily m k st cal t1 q) := by
  unfold _upsert_steps_daily
  cases hm : m k <;>
    simp only [Table.set, if_pos rfl] <;>
    by_cases hq : q = k <;>
    simp [Table.set, hq, stripRow]

theorem distance_daily_absorb (m : Table DailyKey DistanceDailyData)
    (k : DailyKey) (d : Option ℚ) (t1 t2 : Int) (q : DailyKey) :
    stripRow (_upsert_distance_daily
        (_upsert_distance_daily m k d t1) k d t2 q)
      = stripRow (_upsert_distance_daily m k d t1 q) := by
  unfold _upsert_distance_daily
  cases hm : m k <;>
    simp only [Table.set, if_pos rfl] <;>
    by_cases hq : q = k <;>
    simp [Table.set, hq, stripRow]

theorem snapshot_absorb (m : Table DailyKey SnapshotData) (k : DailyKey)
    (st : Option Int) (d : Option ℚ) (cal : Option ℚ)
    (sl : Option Int) (tz : Option String) (t1 t2 : Int) (q : DailyKey) :
    stripRow (_upsert_daily_snapshot
        (_upsert_daily_snapshot m k st d cal sl tz t1) k st d cal sl tz t2 q)
      = stripRow (_upsert_daily_snapshot m k st d cal sl tz t1 q) := by
  unfold _upsert_daily_snapshot
  cases hm : m k <;>
    simp only [Table.set, if_pos rfl] <;>
    by_cases hq : q = k <;>
    simp [Table.set, hq, stripRow]

theorem persist_steps_daily (uid : String) (tz : Option String)
    (ro : Bool) (r : DayResult) (t : Int) (s : StoreState) :
    (_persist_daily_snapshot uid tz ro r t s).steps_daily
      = if ro then
          _upsert_steps_daily s.steps_daily ⟨uid, "withings", r.date⟩
            r.steps r.calories t
        else s.steps_daily := by
  unfold _persist_daily_snapshot
  cases ro
  · rfl
  · simp only [if_true]
    by_cases hd : r.distanceKm.isSome <;> simp [hd]

theorem persist_distance_daily (uid : String) (tz : Option String)
    (ro : Bool) (r : DayResult) (t : Int) (s : StoreState) :
    (_persist_daily_snapshot uid tz ro r t s).distance_daily
      = if ro ∧ r.distanceKm.isSome then
          _upsert_distance_daily s.distance_daily ⟨uid, "withings", r.date⟩
            r.distanceKm t
        else s.distance_daily := by
  unfold _persist_daily_snapshot
  cases ro
  · rfl
  · by_cases hd : r.distanceKm.isSome <;> simp [hd]

theorem persist_snapshot (uid : String) (tz : Option String)
    (ro : Bool) (r : DayResult) (t : Int) (s : StoreState) :
    (_persist_daily_snapshot uid tz ro r t s).daily_snapshot
      = if ro then
          _upsert_daily_snapshot s.daily_snapshot ⟨uid, "withings", r.date⟩
            r.steps r.distanceKm r.calories
            (r.sleepHours.map (fun h => pyInt (h * 60))) tz t
        else s.daily_snapshot := by
  unfold _persist_daily_snapshot
  cases ro
  · rfl
  · simp only [if_true]
    by_cases hd : r.distanceKm.isSome <;> simp [hd]

theorem persist_steps_intraday (uid : String) (tz : Option String)
    (ro : Bool) (r : DayResult) (t : Int) (s : StoreState) :
    (_persist_daily_snapshot uid tz ro r t s).steps_intraday
      = s.steps_intraday := by
  unfold _persist_daily_snapshot
  cases ro
  · rfl
  · by_cases hd : r.distanceKm.isSome <;> simp [hd]

theorem persist_distance_intraday (uid : String) (tz : Option String)
    (ro : Bool) (r : DayResult) (t : Int) (s : StoreState) :
    (_persist_daily_snapshot uid tz ro r t s).distance_intraday
      = s.distance_intraday := by
  unfold _persist_daily_snapshot
  cases ro
  · rfl
  · by_cases hd : r.distanceKm.isSome <;> simp [hd]

theorem fetch_for_persist_char (inp : FetchInputs) (d : Int)
    (uid : String) (ro : Bool) (se ee : Int) (t : Int) (s : StoreState) :
    fetch_for_persist inp d uid ro se ee t s
      = (day_log inp d uid ro se ee).map (fun L =>
          { s with
              steps_intraday :=
                _bulk_upsert_intraday s.steps_intraday L.steps_w t
              distance_intraday :=
                _bulk_upsert_intraday s.distance_intraday L.dist_w t }) := by
  unfold fetch_for_persist day_log
  cases ht : inp.is_today with
  | false => rfl
  | true =>
    cases hs : inp.series with
    | none => rfl
    | some sv =>
      dsimp only
      cases hc1 : _collect_metric_samples sv "steps" with
      | error e => rw [except_error_bind, except_error_bind]; rfl
      | ok steps_samples =>
        rw [except_ok_bind, except_ok_bind]
        cases hc2 : _collect_metric_samples sv "distance" with
        | error e => rw [except_error_bind, except_error_bind]; rfl
        | ok dist_samples =>
          rw [except_ok_bind, except_ok_bind]
          cases ro with
          | false => rfl
          | true =>
            simp only [if_true]
            by_cases h1 : steps_samples.isEmpty <;>
              by_cases h2 : dist_samples.isEmpty <;>
              simp [h1, h2, Except.map, except_pure_eq,
                _bulk_upsert_intraday]

theorem fallback_loop_run_char (cfg : SyncCfg) (t : Int) :
    ∀ (n i : Nat) (s : StoreState),
      fallback_loop_run cfg t i n s
        = (loop_log cfg i n).map (fun x =>
            (x.1, { s with
              steps_intraday :=
                _bulk_upsert_intraday s.steps_intraday x.2.steps_w t
              distance_intraday :=
                _bulk_upsert_intraday s.distance_intraday x.2.dist_w t })) := by
  intro n
  induction n with
  | zero => intro i s; rfl
  | succ n ih =>
    intro i s
    unfold fallback_loop_run loop_log
    dsimp only
    rw [fetch_for_persist_char]
    cases hL : day_log (cfg.prov (cfg.date - (i : Int)))
        (cfg.date - (i : Int)) cfg.uid cfg.resolveOk
        (cfg.window (cfg.date - (i : Int))).1
        (cfg.window (cfg.date - (i : Int))).2 with
    | error e =>
      simp only [Except.map, except_error_bind]
    | ok L =>
      simp only [Except.map, except_ok_bind]
      by_cases hh : _has_any (fetch_for (cfg.prov (cfg.date - (i : Int)))
          (cfg.date - (i : Int))) = true
      · simp only [hh, if_true, except_pure_eq, Except.map]
      · rw [if_neg hh, if_neg hh]
        rw [ih (i + 1)]
        cases hx : loop_log cfg (i + 1) n with
        | error e => simp only [Except.map, except_error_bind]
        | ok x =>
          simp only [Except.map, except_ok_bind, except_pure_eq,
            Except.ok.injEq]
          refine congrArg (fun y => (x.1, y)) ?_
          simp only [RunLog.append, _bulk_upsert_intraday,
            List.foldl_append]

theorem daily_metrics_run_char (cfg : SyncCfg) (t : Int) (s : StoreState) :
    daily_metrics_run cfg t s
      = (run_log cfg).map (fun x =>
          (x.1, apply_run cfg x.2 x.1 t s)) := by
  unfold daily_metrics_run run_log
  dsimp only
  rw [fetch_for_persist_char]
  cases hL0 : day_log (cfg.prov cfg.date) cfg.date cfg.uid cfg.resolveOk
      (cfg.window cfg.date).1 (cfg.window cfg.date).2 with
  | error e => simp only [Except.map, except_error_bind]
  | ok L0 =>
    simp only [Except.map, except_ok_bind]
    by_cases hcond : (!_has_any (fetch_for (cfg.prov cfg.date) cfg.date))
        = true ∧ cfg.fallback_days > 0
    · rw [if_pos hcond, if_pos hcond]
      rw [fallback_loop_run_char]
      cases hx : loop_log cfg 1 cfg.fallback_days with
      | error e => simp only [Except.map, except_error_bind]
      | ok x =>
        obtain ⟨x1, L⟩ := x
        cases x1 with
        | some r2 =>
          simp only [Except.map, except_ok_bind, except_pure_eq,
            apply_run, RunLog.append, _bulk_upsert_intraday,
            List.foldl_append]
        | none =>
          simp only [Except.map, except_ok_bind, except_pure_eq,
            apply_run, RunLog.append, _bulk_upsert_intraday,
            List.foldl_append]
    · rw [if_neg hcond, if_neg hcond]
      simp only [except_pure_eq, Except.map, apply_run]

theorem apply_run_strip_absorb (cfg : SyncCfg) (L : RunLog)
    (r : DayResult) (t1 t2 : Int) (s : StoreState) :
    (apply_run cfg L r t2 (apply_run cfg L r t1 s)).strip
      = (apply_run cfg L r t1 s).strip := by
  unfold StoreState.strip
  have hsd : ∀ (x : StoreState) (t : Int),
      (apply_run cfg L r t x).steps_daily
        = if cfg.resolveOk then
            _upsert_steps_daily x.steps_daily ⟨cfg.uid, "withings", r.date⟩
              r.steps r.calories t
          else x.steps_daily := by
    intro x t
    unfold apply_run
    rw [persist_steps_daily]
  have hdd : ∀ (x : StoreState) (t : Int),
      (apply_run cfg L r t x).distance_daily
        = if cfg.resolveOk ∧ r.distanceKm.isSome then
            _upsert_distance_daily x.distance_daily
              ⟨cfg.uid, "withings", r.date⟩ r.distanceKm t
          else x.distance_daily := by
    intro x t
    unfold apply_run
    rw [persist_distance_daily]
  have hsn : ∀ (x : StoreState) (t : Int),
      (apply_run cfg L r t x).daily_snapshot
        = if cfg.resolveOk then
            _upsert_daily_snapshot x.daily_snapshot
              ⟨cfg.uid, "withings", r.date⟩ r.steps r.distanceKm r.calories
              (r.sleepHours.map (fun h => pyInt (h * 60))) cfg.tz t
          else x.daily_snapshot := by
    intro x t
    unfold apply_run
    rw [persist_snapshot]
  have hsi : ∀ (x : StoreState) (t : Int),
      (apply_run cfg L r t x).steps_intraday
        = _bulk_upsert_intraday x.steps_intraday L.steps_w t := by
    intro x t
    unfold apply_run
    rw [persist_steps_intraday]
  have hdi : ∀ (x : StoreState) (t : Int),
      (apply_run cfg L r t x).distance_intraday
        = _bulk_upsert_intraday x.distance_intraday L.dist_w t := by
    intro x t
    unfold apply_run
    rw [persist_distance_intraday]
  congr 1
  · funext q
    simp only [hsd]
    by_cases hro : cfg.resolveOk
    · simp only [hro, if_true]
      exact steps_daily_absorb _ _ _ _ _ _ q
    · simp [hro]
  · funext q
    simp only [hdd]
    by_cases hro : cfg.resolveOk ∧ r.distanceKm.isSome
    · simp only [hro, if_true]
      exact distance_daily_absorb _ _ _ _ _ q
    · simp [hro]
  · funext q
    simp only [hsn]
    by_cases hro : cfg.resolveOk
    · simp only [hro, if_true]
      exact snapshot_absorb _ _ _ _ _ _ _ _ _ q
    · simp [hro]
  · funext q
    simp only [hsi]
    exact bulk_upsert_strip_absorb _ _ _ _ q
  · funext q
    simp only [hdi]
    exact bulk_upsert_strip_absorb _ _ _ _ q

/-- C7: re-running one `daily_metrics` sync with identical provider
responses returns the same payload and leaves the persisted metric data
(daily rows, snapshot and intraday sample blobs) identical; the store
keeps at most one row per key throughout (tables are maps keyed by their
unique constraints).  Only the `updated_at` audit columns (stripped by
`StoreState.strip`) are refreshed by the second run. -/
theorem daily_sync_rerun_idempotent :
    ∀ (cfg : SyncCfg) (t1 t2 : Int) (s : StoreState) (r : DayResult)
      (s1 : StoreState),
      daily_metrics_run cfg t1 s = .ok (r, s1) →
      ∃ s2, daily_metrics_run cfg t2 s1 = .ok (r, s2)
        ∧ s2.strip = s1.strip := by
  intro cfg t1 t2 s r s1 h
  rw [daily_metrics_run_char] at h
  cases hlog : run_log cfg with
  | error e =>
    rw [hlog] at h
    exact absurd h (by simp [Except.map])
  | ok x =>
    rw [hlog] at h
    simp only [Except.map, Except.ok.injEq, Prod.mk.injEq] at h
    obtain ⟨hr, hs1⟩ := h
    refine ⟨apply_run cfg x.2 x.1 t2 s1, ?_, ?_⟩
    · rw [daily_metrics_run_char, hlog]
      simp only [Except.map, Except.ok.injEq, Prod.mk.injEq]
      exact ⟨hr, trivial⟩
    · rw [← hs1]
      exact apply_run_strip_absorb cfg x.2 x.1 t1 t2 s

unseal Rat.mul Rat.add Rat.inv Rat.sub in
/-- C7 witness: a concrete "today" sync against the empty store, run at
time 5 and re-run at time 9: same payload, and the stripped stores
agree. -/
theorem daily_sync_rerun_idempotent_witness :
    ∃ (r : DayResult) (s1 s2 : StoreState),
      daily_metrics_run c7_cfg 5 emptyStore = .ok (r, s1)
      ∧ daily_metrics_run c7_cfg 9 s1 = .ok (r, s2)
      ∧ s2.strip = s1.strip := by
  obtain ⟨r, s1, h⟩ : ∃ r s1,
      daily_metrics_run c7_cfg 5 emptyStore = .ok (r, s1) := ⟨_, _, rfl⟩
  obtain ⟨s2, h2, h3⟩ :=
    daily_sync_rerun_idempotent c7_cfg 5 9 emptyStore r s1 h
  exact ⟨r, s1, s2, h, h2, h3⟩

end HealthSync
